import Mathlib

set_option maxHeartbeats 1000000

/-!
Shallow embedding of the Atari Jaguar GPU/DSP interpreter core from
src/devices/cpu/jaguar/jaguar.cpp.

Machine integers are modelled as Nat with explicit reduction modulo 2^32
(or 2^64 for the multiply-accumulate register) wherever the C code's
unsigned arithmetic wraps; signed views of stored values are recovered
through s8v / s16v / s32v / s64v. The external address space is modelled
by read functions carried in the state and by a log of write events, so
that a theorem can talk about exactly which bus writes an operation
performs. Unbounded C loops (the imultn fetch loop, the dispatcher's
do/while, the folded-branch recursion of jump/jr) take an explicit fuel
argument and return Option; `none` only means the chosen fuel was too
small.
-/

def M32 : Nat := 4294967296

def U64 : Nat := 18446744073709551616

def u32 (x : Nat) : Nat := x % M32

/-- Bitwise complement on a 32-bit value, the C `~x` on `u32`. -/
def not32 (x : Nat) : Nat := u32 x ^^^ 4294967295

/-- 32-bit wrapping subtraction `a - b`. -/
def sub32 (a b : Nat) : Nat := (a + M32 - u32 b) % M32

/-- 32-bit wrapping negation `-x`. -/
def neg32 (x : Nat) : Nat := (M32 - u32 x) % M32

/-- Signed value of the low 8 bits (the C cast `(s8)x`). -/
def s8v (x : Nat) : Int :=
  if x % 256 < 128 then ((x % 256 : Nat) : Int) else ((x % 256 : Nat) : Int) - 256

/-- Signed value of the low 16 bits (the C cast `(int16_t)x`). -/
def s16v (x : Nat) : Int :=
  if x % 65536 < 32768 then ((x % 65536 : Nat) : Int) else ((x % 65536 : Nat) : Int) - 65536

/-- Signed value of the low 32 bits (the C cast `(s32)x`). -/
def s32v (x : Nat) : Int :=
  if u32 x < 2147483648 then ((u32 x : Nat) : Int) else ((u32 x : Nat) : Int) - (M32 : Int)

/-- Signed value of the low 64 bits (the stored `s64` accumulator). -/
def s64v (x : Nat) : Int :=
  if x % U64 < 9223372036854775808 then ((x % U64 : Nat) : Int)
  else ((x % U64 : Nat) : Int) - (U64 : Int)

/-- Two's-complement 32-bit encoding of a signed integer. -/
def i2u32 (x : Int) : Nat := (x % (M32 : Int)).toNat

/-- Two's-complement 64-bit encoding of a signed integer. -/
def i2u64 (x : Int) : Nat := (x % (U64 : Int)).toNat

/-- Arithmetic shift right on a signed value (C `>>` on a signed int). -/
def asr (x : Int) (n : Nat) : Int := Int.fdiv x (2 ^ n)

/-- Point update of a register array. -/
def upd (f : Nat → Nat) (i v : Nat) : Nat → Nat := fun j => if j = i then v else f j

/-- One write event on the external bus: WRITEBYTE / WRITEWORD / WRITELONG. -/
inductive Wr where
  | byte : Nat → Nat → Wr
  | word : Nat → Nat → Wr
  | long : Nat → Nat → Wr
deriving DecidableEq

/--
The interpreter state of one jaguar_cpu_device instance. `r` is the
active register array `m_r`, `a` the alternate array `m_a`, and `b0IsR`
records whether the bank-0 pointer `m_b0` currently equals `m_r`.
`flags`, `pc`, `ctrl`, `mtxc`, `mtxa`, `gend`, `hidata`, `divctrl`,
`remainder` and `dmod` are the named slots of the `m_ctrl` array
(G_FLAGS, G_PC, G_CTRL, G_MTXC, G_MTXA, G_END, G_HIDATA, G_DIVCTRL,
G_REMAINDER, and the DSP's D_MOD). `fetch` is the opcode-cache 16-bit
read path ROPCODE, `readB`/`readW`/`readL` the data-bus read paths, and
`writes` the log of bus writes issued so far.
-/
structure JagState where
  r : Nat → Nat
  a : Nat → Nat
  b0IsR : Bool
  flags : Nat
  pc : Nat
  ctrl : Nat
  mtxc : Nat
  mtxa : Nat
  gend : Nat
  hidata : Nat
  divctrl : Nat
  remainder : Nat
  dmod : Nat
  ppc : Nat
  accum : Nat
  icount : Int
  bankswitch_icount : Int
  isdsp : Bool
  fetch : Nat → Nat
  readB : Nat → Nat
  readW : Nat → Nat
  readL : Nat → Nat
  writes : List Wr

/-- ROPCODE: a 16-bit opcode fetch through the cache read path. -/
def ROPCODE (st : JagState) (addr : Nat) : Nat := st.fetch addr % 65536

def CLR_Z (f : Nat) : Nat := f &&& 4294967294

def CLR_ZN (f : Nat) : Nat := f &&& 4294967290

def CLR_ZNC (f : Nat) : Nat := f &&& 4294967288

def SET_Z (f r : Nat) : Nat := f ||| (if r = 0 then 1 else 0)

def SET_C_ADD (f a b : Nat) : Nat := f ||| (if not32 a < u32 b then 2 else 0)

def SET_C_SUB (f a b : Nat) : Nat := f ||| (if u32 a < u32 b then 2 else 0)

def SET_N (f r : Nat) : Nat := f ||| ((r >>> 29) &&& 4)

def SET_ZN (f r : Nat) : Nat := SET_Z (SET_N f r) r

def SET_ZNC_ADD (f a b r : Nat) : Nat := SET_C_ADD (SET_Z (SET_N f r) r) a b

def SET_ZNC_SUB (f a b r : Nat) : Nat := SET_C_SUB (SET_Z (SET_N f r) r) a b

/-- The quick-immediate table: raw field 0 encodes 32, 1..31 themselves. -/
def convert_zero (n : Nat) : Nat :=
  [32, 1, 2, 3, 4, 5, 6, 7, 8, 9, 10, 11, 12, 13, 14, 15, 16,
   17, 18, 19, 20, 21, 22, 23, 24, 25, 26, 27, 28, 29, 30, 31].getD n 0

/-- One entry of the shared 16-bit mirror table (init_tables). -/
def mirror16 (i : Nat) : Nat :=
  ((i >>> 15) &&& 0x0001) ||| ((i >>> 13) &&& 0x0002) |||
  ((i >>> 11) &&& 0x0004) ||| ((i >>> 9)  &&& 0x0008) |||
  ((i >>> 7)  &&& 0x0010) ||| ((i >>> 5)  &&& 0x0020) |||
  ((i >>> 3)  &&& 0x0040) ||| ((i >>> 1)  &&& 0x0080) |||
  ((i <<< 1)  &&& 0x0100) ||| ((i <<< 3)  &&& 0x0200) |||
  ((i <<< 5)  &&& 0x0400) ||| ((i <<< 7)  &&& 0x0800) |||
  ((i <<< 9)  &&& 0x1000) ||| ((i <<< 11) &&& 0x2000) |||
  ((i <<< 13) &&& 0x4000) ||| ((i <<< 15) &&& 0x8000)

/-- One entry of the shared condition table (init_tables): row `i` is a
3-bit flags value, column `j` a 5-bit condition code. -/
def condition_entry (i j : Nat) : Nat :=
  let res := 1
  let res := if j &&& 1 ≠ 0 ∧ i &&& 1 ≠ 0 then 0 else res
  let res := if j &&& 2 ≠ 0 ∧ i &&& 1 = 0 then 0 else res
  let res := if j &&& 4 ≠ 0 ∧ i &&& (2 <<< (j >>> 4)) ≠ 0 then 0 else res
  let res := if j &&& 8 ≠ 0 ∧ i &&& (2 <<< (j >>> 4)) = 0 then 0 else res
  res

/-- CONDITION(x): the condition table at the current Z/C/N flags. -/
def CONDITION (st : JagState) (x : Nat) : Nat := condition_entry (st.flags &&& 7) x

/-- Per-variant internal scratch-RAM window start, set in the constructor. -/
def internal_ram_start (isdsp : Bool) : Nat := if isdsp then 0xf1b000 else 0xf03000

/-- Per-variant internal scratch-RAM window end, set in the constructor. -/
def internal_ram_end (isdsp : Bool) : Nat := if isdsp then 0xf1cfff else 0xf03fff

/-- update_register_banks: recompute the desired bank from the flags
(page bit, forced to 0 by the interrupt mask), physically exchange the
two arrays when it differs from the active one, and remember
`m_icount - 1` in `m_bankswitch_icount`. -/
def update_register_banks (st : JagState) : JagState :=
  let bank := if st.flags &&& 8 ≠ 0 then 0 else st.flags &&& 16384
  if (bank == 0 && !st.b0IsR) || (bank != 0 && st.b0IsR) then
    { st with bankswitch_icount := st.icount - 1,
              r := st.a, a := st.r, b0IsR := bank == 0 }
  else st

/-- The pending-interrupt bits gathered from G_CTRL in check_irqs. -/
def irq_bits (st : JagState) : Nat :=
  ((st.ctrl >>> 6) &&& 31) ||| ((st.ctrl >>> 10) &&& 32)

/-- The interrupt-enable bits gathered from the flags in check_irqs. -/
def irq_mask (st : JagState) : Nat :=
  ((st.flags >>> 4) &&& 31) ||| ((st.flags >>> 11) &&& 32)

/-- The line selected by check_irqs' chain of ifs: scanning upward, the
last (highest-numbered) set bit wins. -/
def irq_which (bits : Nat) : Nat :=
  let w := 0
  let w := if bits &&& 1 ≠ 0 then 0 else w
  let w := if bits &&& 2 ≠ 0 then 1 else w
  let w := if bits &&& 4 ≠ 0 then 2 else w
  let w := if bits &&& 8 ≠ 0 then 3 else w
  let w := if bits &&& 16 ≠ 0 then 4 else w
  let w := if bits &&& 32 ≠ 0 then 5 else w
  w

/-- check_irqs: bail when the interrupt mask is set; otherwise dispatch
the highest pending-and-enabled line: set the mask, force bank 0, push
PC-2 at the predecremented register 31, and vector. -/
def check_irqs (st : JagState) : JagState :=
  if st.flags &&& 8 ≠ 0 then st
  else
    let bits := irq_bits st &&& irq_mask st
    if bits = 0 then st
    else
      let which := irq_which bits
      let st1 := update_register_banks { st with flags := st.flags ||| 8 }
      let r31 := sub32 (st1.r 31) 4
      let st2 := { st1 with r := upd st1.r 31 r31,
                            writes := st1.writes ++ [Wr.long r31 (sub32 st1.pc 2)] }
      { st2 with pc := (if st2.isdsp then 0xf1b000 else 0xf03000) + which * 16 }

/-- execute_set_input: toggle the pending bit of one line in G_CTRL and,
on assertion, re-run the interrupt check synchronously. -/
def execute_set_input (st : JagState) (irqline : Nat) (state : Bool) : JagState :=
  let mask := if irqline < 5 then 64 <<< irqline else 65536
  let st1 := { st with ctrl := st.ctrl &&& not32 mask }
  if state then check_irqs { st1 with ctrl := st1.ctrl ||| mask } else st1

def abs_rn (st : JagState) (op : Nat) : JagState :=
  let dreg := op &&& 31
  let res := st.r dreg
  let fl := CLR_ZNC st.flags
  if res &&& 0x80000000 ≠ 0 then
    let res2 := neg32 res
    { st with r := upd st.r dreg res2, flags := SET_Z (fl ||| 2) res2 }
  else
    { st with flags := SET_Z fl res }

def add_rn_rn (st : JagState) (op : Nat) : JagState :=
  let dreg := op &&& 31
  let r1 := st.r ((op >>> 5) &&& 31)
  let r2 := st.r dreg
  let res := u32 (r2 + r1)
  { st with r := upd st.r dreg res, flags := SET_ZNC_ADD (CLR_ZNC st.flags) r2 r1 res }

def addc_rn_rn (st : JagState) (op : Nat) : JagState :=
  let dreg := op &&& 31
  let r1 := st.r ((op >>> 5) &&& 31)
  let r2 := st.r dreg
  let c := (st.flags >>> 1) &&& 1
  let res := u32 (r2 + r1 + c)
  { st with r := upd st.r dreg res,
            flags := SET_ZNC_ADD (CLR_ZNC st.flags) r2 (u32 (r1 + c)) res }

def addq_n_rn (st : JagState) (op : Nat) : JagState :=
  let dreg := op &&& 31
  let r1 := convert_zero ((op >>> 5) &&& 31)
  let r2 := st.r dreg
  let res := u32 (r2 + r1)
  { st with r := upd st.r dreg res, flags := SET_ZNC_ADD (CLR_ZNC st.flags) r2 r1 res }

/-- addqmod (DSP only), exactly as written in the source: note both
halves of the combine use the complement of D_MOD. -/
def addqmod_n_rn (st : JagState) (op : Nat) : JagState :=
  let dreg := op &&& 31
  let r1 := convert_zero ((op >>> 5) &&& 31)
  let r2 := st.r dreg
  let res := u32 (r2 + r1)
  let res := (res &&& not32 st.dmod) ||| (r2 &&& not32 st.dmod)
  { st with r := upd st.r dreg res, flags := SET_ZNC_ADD (CLR_ZNC st.flags) r2 r1 res }

def addqt_n_rn (st : JagState) (op : Nat) : JagState :=
  let dreg := op &&& 31
  let r1 := convert_zero ((op >>> 5) &&& 31)
  let r2 := st.r dreg
  { st with r := upd st.r dreg (u32 (r2 + r1)) }

def and_rn_rn (st : JagState) (op : Nat) : JagState :=
  let dreg := op &&& 31
  let res := st.r dreg &&& st.r ((op >>> 5) &&& 31)
  { st with r := upd st.r dreg res, flags := SET_ZN (CLR_ZN st.flags) res }

def bclr_n_rn (st : JagState) (op : Nat) : JagState :=
  let dreg := op &&& 31
  let r1 := (op >>> 5) &&& 31
  let res := st.r dreg &&& not32 (1 <<< r1)
  { st with r := upd st.r dreg res, flags := SET_ZN (CLR_ZN st.flags) res }

def bset_n_rn (st : JagState) (op : Nat) : JagState :=
  let dreg := op &&& 31
  let r1 := (op >>> 5) &&& 31
  let res := st.r dreg ||| (1 <<< r1)
  { st with r := upd st.r dreg res, flags := SET_ZN (CLR_ZN st.flags) res }

def btst_n_rn (st : JagState) (op : Nat) : JagState :=
  let r1 := (op >>> 5) &&& 31
  let r2 := st.r (op &&& 31)
  { st with flags := CLR_Z st.flags ||| ((not32 r2 >>> r1) &&& 1) }

def cmp_rn_rn (st : JagState) (op : Nat) : JagState :=
  let r1 := st.r ((op >>> 5) &&& 31)
  let r2 := st.r (op &&& 31)
  let res := sub32 r2 r1
  { st with flags := SET_ZNC_SUB (CLR_ZNC st.flags) r2 r1 res }

def cmpq_n_rn (st : JagState) (op : Nat) : JagState :=
  let r1 := i2u32 (asr (s8v (op >>> 2)) 3)
  let r2 := st.r (op &&& 31)
  let res := sub32 r2 r1
  { st with flags := SET_ZNC_SUB (CLR_ZNC st.flags) r2 r1 res }

def div_rn_rn (st : JagState) (op : Nat) : JagState :=
  let dreg := op &&& 31
  let r1 := st.r ((op >>> 5) &&& 31)
  let r2 := st.r dreg
  if r1 ≠ 0 then
    if st.divctrl &&& 1 ≠ 0 then
      { st with r := upd st.r dreg (u32 ((r2 <<< 16) / r1)),
                remainder := (r2 <<< 16) % r1 }
    else
      { st with r := upd st.r dreg (r2 / r1), remainder := r2 % r1 }
  else
    { st with r := upd st.r dreg 4294967295 }

def illegal (st : JagState) (op : Nat) : JagState := st

def imacn_rn_rn (st : JagState) (op : Nat) : JagState :=
  let r1 := st.r ((op >>> 5) &&& 31)
  let r2 := st.r (op &&& 31)
  { st with accum := (st.accum + i2u64 (s16v r1 * s16v r2)) % U64 }

def imult_rn_rn (st : JagState) (op : Nat) : JagState :=
  let dreg := op &&& 31
  let r1 := st.r ((op >>> 5) &&& 31)
  let r2 := st.r dreg
  let res := i2u32 (s16v r1 * s16v r2)
  { st with r := upd st.r dreg res, flags := SET_ZN (CLR_ZN st.flags) res }

/-- The imultn fetch loop: while the word at pc decodes to IMACN
(top 6 bits = 20) keep accumulating and advancing; return the final pc,
accumulator and the first non-IMACN word. -/
def imacnLoop (r : Nat → Nat) (fetch : Nat → Nat) :
    Nat → Nat → Nat → Option (Nat × Nat × Nat)
  | 0, _, _ => none
  | fuel + 1, pc, acc =>
    let op := fetch pc % 65536
    if op >>> 10 = 20 then
      let r1 := r ((op >>> 5) &&& 31)
      let r2 := r (op &&& 31)
      imacnLoop r fetch fuel (u32 (pc + 2)) ((acc + i2u64 (s16v r1 * s16v r2)) % U64)
    else some (pc, acc, op)

/-- imultn: seed the accumulator with one signed 16x16 product, then keep
consuming IMACN words in the same dispatch step; if the terminating word
is RESMAC (top 6 bits = 19) consume it too and store the truncated
accumulator in its destination register. -/
def imultn_rn_rn (fuel : Nat) (st : JagState) (op : Nat) : Option JagState :=
  let dreg := op &&& 31
  let r1 := st.r ((op >>> 5) &&& 31)
  let r2 := st.r dreg
  let res := i2u32 (s16v r1 * s16v r2)
  let acc0 := i2u64 (s32v res)
  let fl := SET_ZN (CLR_ZN st.flags) res
  match imacnLoop st.r st.fetch fuel st.pc acc0 with
  | none => none
  | some (pc2, acc2, lastOp) =>
    if lastOp >>> 10 = 19 then
      some { st with flags := fl, accum := acc2, pc := u32 (pc2 + 2),
                     r := upd st.r (lastOp &&& 31) (acc2 % M32) }
    else
      some { st with flags := fl, accum := acc2, pc := pc2 }

def load_rn_rn (st : JagState) (op : Nat) : JagState :=
  let r1 := st.r ((op >>> 5) &&& 31)
  { st with r := upd st.r (op &&& 31) (u32 (st.readL r1)) }

def load_r14n_rn (st : JagState) (op : Nat) : JagState :=
  let r1 := convert_zero ((op >>> 5) &&& 31)
  { st with r := upd st.r (op &&& 31) (u32 (st.readL (u32 (st.r 14 + 4 * r1)))) }

def load_r15n_rn (st : JagState) (op : Nat) : JagState :=
  let r1 := convert_zero ((op >>> 5) &&& 31)
  { st with r := upd st.r (op &&& 31) (u32 (st.readL (u32 (st.r 15 + 4 * r1)))) }

def load_r14rn_rn (st : JagState) (op : Nat) : JagState :=
  let r1 := st.r ((op >>> 5) &&& 31)
  { st with r := upd st.r (op &&& 31) (u32 (st.readL (u32 (st.r 14 + r1)))) }

def load_r15rn_rn (st : JagState) (op : Nat) : JagState :=
  let r1 := st.r ((op >>> 5) &&& 31)
  { st with r := upd st.r (op &&& 31) (u32 (st.readL (u32 (st.r 15 + r1)))) }

def loadb_rn_rn (st : JagState) (op : Nat) : JagState :=
  let r1 := st.r ((op >>> 5) &&& 31)
  if internal_ram_start st.isdsp ≤ r1 ∧ r1 ≤ internal_ram_end st.isdsp then
    { st with r := upd st.r (op &&& 31) (u32 (st.readL (r1 &&& 4294967292))) }
  else
    { st with r := upd st.r (op &&& 31) (st.readB r1 % 256) }

def loadw_rn_rn (st : JagState) (op : Nat) : JagState :=
  let r1 := st.r ((op >>> 5) &&& 31)
  if internal_ram_start st.isdsp ≤ r1 ∧ r1 ≤ internal_ram_end st.isdsp then
    { st with r := upd st.r (op &&& 31) (u32 (st.readL (r1 &&& 4294967292))) }
  else
    { st with r := upd st.r (op &&& 31) (st.readW r1 % 65536) }

def loadp_rn_rn (st : JagState) (op : Nat) : JagState :=
  let r1 := st.r ((op >>> 5) &&& 31)
  if internal_ram_start st.isdsp ≤ r1 ∧ r1 ≤ internal_ram_end st.isdsp then
    { st with r := upd st.r (op &&& 31) (u32 (st.readL (r1 &&& 4294967292))) }
  else
    { st with hidata := u32 (st.readL r1),
              r := upd st.r (op &&& 31) (u32 (st.readL (u32 (r1 + 4)))) }

def mirror_rn (st : JagState) (op : Nat) : JagState :=
  let dreg := op &&& 31
  let r1 := st.r dreg
  let res := (mirror16 (r1 &&& 65535) <<< 16) ||| mirror16 (u32 r1 >>> 16)
  { st with r := upd st.r dreg res, flags := SET_ZN (CLR_ZN st.flags) res }

/-- The mmult inner accumulation over `count` 16-bit terms. -/
def mmultLoop (b1 rdW : Nat → Nat) (sreg stride : Nat) :
    Nat → Nat → Nat → Int → Int
  | 0, _, _, acc => acc
  | n + 1, i, addr, acc =>
    mmultLoop b1 rdW sreg stride n (i + 1) (u32 (addr + stride))
      (acc + s16v (b1 (sreg + i / 2) >>> (16 * ((i &&& 1) ^^^ 1))) * s16v (rdW addr))

def mmult_rn_rn (st : JagState) (op : Nat) : JagState :=
  let count := st.mtxc &&& 15
  let sreg := (op >>> 5) &&& 31
  let dreg := op &&& 31
  let b1 := if st.b0IsR then st.a else st.r
  let stride := if st.mtxc &&& 16 = 0 then 2 else 2 * count
  let acc := mmultLoop b1 st.readW sreg stride count 0 st.mtxa 0
  let res := i2u32 acc
  { st with r := upd st.r dreg res, flags := SET_ZN (CLR_ZN st.flags) res }

def move_rn_rn (st : JagState) (op : Nat) : JagState :=
  { st with r := upd st.r (op &&& 31) (st.r ((op >>> 5) &&& 31)) }

def move_pc_rn (st : JagState) (op : Nat) : JagState :=
  { st with r := upd st.r (op &&& 31) st.ppc }

def movefa_rn_rn (st : JagState) (op : Nat) : JagState :=
  { st with r := upd st.r (op &&& 31) (st.a ((op >>> 5) &&& 31)) }

def movei_n_rn (st : JagState) (op : Nat) : JagState :=
  let res := ROPCODE st st.pc ||| (ROPCODE st (u32 (st.pc + 2)) <<< 16)
  { st with pc := u32 (st.pc + 4), r := upd st.r (op &&& 31) res }

def moveq_n_rn (st : JagState) (op : Nat) : JagState :=
  { st with r := upd st.r (op &&& 31) ((op >>> 5) &&& 31) }

def moveta_rn_rn (st : JagState) (op : Nat) : JagState :=
  { st with a := upd st.a (op &&& 31) (st.r ((op >>> 5) &&& 31)) }

def mtoi_rn_rn (st : JagState) (op : Nat) : JagState :=
  let r1 := st.r ((op >>> 5) &&& 31)
  let res := (i2u32 (asr (s32v r1) 8) &&& 4286578688) ||| (r1 &&& 8388607)
  { st with r := upd st.r (op &&& 31) res }

def mult_rn_rn (st : JagState) (op : Nat) : JagState :=
  let dreg := op &&& 31
  let r1 := st.r ((op >>> 5) &&& 31)
  let r2 := st.r dreg
  let res := (r1 &&& 65535) * (r2 &&& 65535)
  { st with r := upd st.r dreg res, flags := SET_ZN (CLR_ZN st.flags) res }

def neg_rn (st : JagState) (op : Nat) : JagState :=
  let dreg := op &&& 31
  let r2 := st.r dreg
  let res := neg32 r2
  { st with r := upd st.r dreg res, flags := SET_ZNC_SUB (CLR_ZNC st.flags) 0 r2 res }

def nop (st : JagState) (op : Nat) : JagState := st

/-- First normi loop: shift left while the top ten bits are clear. -/
def normiUp : Nat → Nat → Nat → Nat × Nat
  | 0, r1, res => (r1, res)
  | fuel + 1, r1, res =>
    if r1 &&& 4290772992 = 0 then normiUp fuel (u32 (r1 <<< 1)) (sub32 res 1)
    else (r1, res)

/-- Second normi loop: shift right while the top nine bits are not clear. -/
def normiDown : Nat → Nat → Nat → Nat × Nat
  | 0, r1, res => (r1, res)
  | fuel + 1, r1, res =>
    if r1 &&& 4286578688 ≠ 0 then normiDown fuel (r1 >>> 1) (u32 (res + 1))
    else (r1, res)

def normi_rn_rn (st : JagState) (op : Nat) : JagState :=
  let r1 := st.r ((op >>> 5) &&& 31)
  let res :=
    if r1 ≠ 0 then
      let p := normiUp 32 (u32 r1) 0
      (normiDown 32 p.1 p.2).2
    else 0
  { st with r := upd st.r (op &&& 31) res, flags := SET_ZN (CLR_ZN st.flags) res }

def not_rn (st : JagState) (op : Nat) : JagState :=
  let dreg := op &&& 31
  let res := not32 (st.r dreg)
  { st with r := upd st.r dreg res, flags := SET_ZN (CLR_ZN st.flags) res }

def or_rn_rn (st : JagState) (op : Nat) : JagState :=
  let dreg := op &&& 31
  let res := st.r ((op >>> 5) &&& 31) ||| st.r dreg
  { st with r := upd st.r dreg res, flags := SET_ZN (CLR_ZN st.flags) res }

def pack_rn (st : JagState) (op : Nat) : JagState :=
  let dreg := op &&& 31
  let pack := (op >>> 5) &&& 31
  let r2 := st.r dreg
  let res :=
    if pack = 0 then
      ((r2 >>> 10) &&& 61440) ||| ((r2 >>> 5) &&& 3840) ||| (r2 &&& 255)
    else
      ((r2 &&& 61440) <<< 10) ||| ((r2 &&& 3840) <<< 5) ||| (r2 &&& 255)
  { st with r := upd st.r dreg res }

def resmac_rn (st : JagState) (op : Nat) : JagState :=
  { st with r := upd st.r (op &&& 31) (st.accum % M32) }

def ror_rn_rn (st : JagState) (op : Nat) : JagState :=
  let dreg := op &&& 31
  let r1 := st.r ((op >>> 5) &&& 31) &&& 31
  let r2 := st.r dreg
  let res := u32 ((u32 r2 >>> r1) ||| (r2 <<< (32 - r1)))
  { st with r := upd st.r dreg res,
            flags := SET_ZN (CLR_ZNC st.flags) res ||| ((r2 >>> 30) &&& 2) }

def rorq_n_rn (st : JagState) (op : Nat) : JagState :=
  let dreg := op &&& 31
  let r1 := convert_zero ((op >>> 5) &&& 31)
  let r2 := st.r dreg
  let res := u32 ((u32 r2 >>> r1) ||| (r2 <<< (32 - r1)))
  { st with r := upd st.r dreg res,
            flags := SET_ZN (CLR_ZNC st.flags) res ||| ((r2 >>> 30) &&& 2) }

def sat8_rn (st : JagState) (op : Nat) : JagState :=
  let dreg := op &&& 31
  let r2 := s32v (st.r dreg)
  let res := if r2 < 0 then 0 else if r2 > 255 then 255 else r2.toNat
  { st with r := upd st.r dreg res, flags := SET_ZN (CLR_ZN st.flags) res }

def sat16_rn (st : JagState) (op : Nat) : JagState :=
  let dreg := op &&& 31
  let r2 := s32v (st.r dreg)
  let res := if r2 < 0 then 0 else if r2 > 65535 then 65535 else r2.toNat
  { st with r := upd st.r dreg res, flags := SET_ZN (CLR_ZN st.flags) res }

def sat16s_rn (st : JagState) (op : Nat) : JagState :=
  let dreg := op &&& 31
  let r2 := s32v (st.r dreg)
  let res := i2u32 (if r2 < -32768 then -32768 else if r2 > 32767 then 32767 else r2)
  { st with r := upd st.r dreg res, flags := SET_ZN (CLR_ZN st.flags) res }

def sat24_rn (st : JagState) (op : Nat) : JagState :=
  let dreg := op &&& 31
  let r2 := s32v (st.r dreg)
  let res := if r2 < 0 then 0 else if r2 > 16777215 then 16777215 else r2.toNat
  { st with r := upd st.r dreg res, flags := SET_ZN (CLR_ZN st.flags) res }

def sat32s_rn (st : JagState) (op : Nat) : JagState :=
  let dreg := op &&& 31
  let r2 := st.r dreg
  let temp := asr (s64v st.accum) 32
  let res := if temp < -1 then 2147483648 else if temp > 0 then 2147483647 else u32 r2
  { st with r := upd st.r dreg res, flags := SET_ZN (CLR_ZN st.flags) res }

def sh_rn_rn (st : JagState) (op : Nat) : JagState :=
  let dreg := op &&& 31
  let r1 := s32v (st.r ((op >>> 5) &&& 31))
  let r2 := st.r dreg
  if r1 < 0 then
    let res := if r1 ≤ -32 then 0 else u32 (r2 <<< (-r1).toNat)
    { st with r := upd st.r dreg res,
              flags := SET_ZN (CLR_ZNC st.flags ||| ((r2 >>> 30) &&& 2)) res }
  else
    let res := if r1 ≥ 32 then 0 else u32 r2 >>> r1.toNat
    { st with r := upd st.r dreg res,
              flags := SET_ZN (CLR_ZNC st.flags ||| ((r2 <<< 1) &&& 2)) res }

def sha_rn_rn (st : JagState) (op : Nat) : JagState :=
  let dreg := op &&& 31
  let r1 := s32v (st.r ((op >>> 5) &&& 31))
  let r2 := st.r dreg
  if r1 < 0 then
    let res := if r1 ≤ -32 then 0 else u32 (r2 <<< (-r1).toNat)
    { st with r := upd st.r dreg res,
              flags := SET_ZN (CLR_ZNC st.flags ||| ((r2 >>> 30) &&& 2)) res }
  else
    let res := if r1 ≥ 32 then i2u32 (asr (s32v r2) 31) else i2u32 (asr (s32v r2) r1.toNat)
    { st with r := upd st.r dreg res,
              flags := SET_ZN (CLR_ZNC st.flags ||| ((r2 <<< 1) &&& 2)) res }

def sharq_n_rn (st : JagState) (op : Nat) : JagState :=
  let dreg := op &&& 31
  let r1 := convert_zero ((op >>> 5) &&& 31)
  let r2 := st.r dreg
  let res := i2u32 (asr (s32v r2) r1)
  { st with r := upd st.r dreg res,
            flags := SET_ZN (CLR_ZNC st.flags) res ||| ((r2 <<< 1) &&& 2) }

def shlq_n_rn (st : JagState) (op : Nat) : JagState :=
  let dreg := op &&& 31
  let r1 := convert_zero ((op >>> 5) &&& 31)
  let r2 := st.r dreg
  let res := u32 (r2 <<< (32 - r1))
  { st with r := upd st.r dreg res,
            flags := SET_ZN (CLR_ZNC st.flags) res ||| ((r2 >>> 30) &&& 2) }

def shrq_n_rn (st : JagState) (op : Nat) : JagState :=
  let dreg := op &&& 31
  let r1 := convert_zero ((op >>> 5) &&& 31)
  let r2 := st.r dreg
  let res := u32 r2 >>> r1
  { st with r := upd st.r dreg res,
            flags := SET_ZN (CLR_ZNC st.flags) res ||| ((r2 <<< 1) &&& 2) }

def store_rn_rn (st : JagState) (op : Nat) : JagState :=
  let r1 := st.r ((op >>> 5) &&& 31)
  { st with writes := st.writes ++ [Wr.long r1 (u32 (st.r (op &&& 31)))] }

def store_rn_r14n (st : JagState) (op : Nat) : JagState :=
  let r1 := convert_zero ((op >>> 5) &&& 31)
  { st with writes := st.writes ++ [Wr.long (u32 (st.r 14 + r1 * 4)) (u32 (st.r (op &&& 31)))] }

def store_rn_r15n (st : JagState) (op : Nat) : JagState :=
  let r1 := convert_zero ((op >>> 5) &&& 31)
  { st with writes := st.writes ++ [Wr.long (u32 (st.r 15 + r1 * 4)) (u32 (st.r (op &&& 31)))] }

def store_rn_r14rn (st : JagState) (op : Nat) : JagState :=
  let r1 := st.r ((op >>> 5) &&& 31)
  { st with writes := st.writes ++ [Wr.long (u32 (st.r 14 + r1)) (u32 (st.r (op &&& 31)))] }

def store_rn_r15rn (st : JagState) (op : Nat) : JagState :=
  let r1 := st.r ((op >>> 5) &&& 31)
  { st with writes := st.writes ++ [Wr.long (u32 (st.r 15 + r1)) (u32 (st.r (op &&& 31)))] }

def storeb_rn_rn (st : JagState) (op : Nat) : JagState :=
  let r1 := st.r ((op >>> 5) &&& 31)
  if internal_ram_start st.isdsp ≤ r1 ∧ r1 ≤ internal_ram_end st.isdsp then
    { st with writes := st.writes ++ [Wr.long (r1 &&& 4294967292) (u32 (st.r (op &&& 31)))] }
  else
    { st with writes := st.writes ++ [Wr.byte r1 (st.r (op &&& 31) % 256)] }

def storew_rn_rn (st : JagState) (op : Nat) : JagState :=
  let r1 := st.r ((op >>> 5) &&& 31)
  if internal_ram_start st.isdsp ≤ r1 ∧ r1 ≤ internal_ram_end st.isdsp then
    { st with writes := st.writes ++ [Wr.long (r1 &&& 4294967292) (u32 (st.r (op &&& 31)))] }
  else
    { st with writes := st.writes ++ [Wr.word r1 (st.r (op &&& 31) % 65536)] }

def storep_rn_rn (st : JagState) (op : Nat) : JagState :=
  let r1 := st.r ((op >>> 5) &&& 31)
  if internal_ram_start st.isdsp ≤ r1 ∧ r1 ≤ internal_ram_end st.isdsp then
    { st with writes := st.writes ++ [Wr.long (r1 &&& 4294967292) (u32 (st.r (op &&& 31)))] }
  else
    { st with writes := st.writes ++
        [Wr.long r1 (u32 st.hidata), Wr.long (u32 (r1 + 4)) (u32 (st.r (op &&& 31)))] }

def sub_rn_rn (st : JagState) (op : Nat) : JagState :=
  let dreg := op &&& 31
  let r1 := st.r ((op >>> 5) &&& 31)
  let r2 := st.r dreg
  let res := sub32 r2 r1
  { st with r := upd st.r dreg res, flags := SET_ZNC_SUB (CLR_ZNC st.flags) r2 r1 res }

def subc_rn_rn (st : JagState) (op : Nat) : JagState :=
  let dreg := op &&& 31
  let r1 := st.r ((op >>> 5) &&& 31)
  let r2 := st.r dreg
  let c := (st.flags >>> 1) &&& 1
  let res := sub32 (sub32 r2 r1) c
  { st with r := upd st.r dreg res,
            flags := SET_ZNC_SUB (CLR_ZNC st.flags) r2 (u32 (r1 + c)) res }

def subq_n_rn (st : JagState) (op : Nat) : JagState :=
  let dreg := op &&& 31
  let r1 := convert_zero ((op >>> 5) &&& 31)
  let r2 := st.r dreg
  let res := sub32 r2 r1
  { st with r := upd st.r dreg res, flags := SET_ZNC_SUB (CLR_ZNC st.flags) r2 r1 res }

/-- subqmod (DSP only), exactly as written in the source: note both
halves of the combine use the complement of D_MOD. -/
def subqmod_n_rn (st : JagState) (op : Nat) : JagState :=
  let dreg := op &&& 31
  let r1 := convert_zero ((op >>> 5) &&& 31)
  let r2 := st.r dreg
  let res := sub32 r2 r1
  let res := (res &&& not32 st.dmod) ||| (r2 &&& not32 st.dmod)
  { st with r := upd st.r dreg res, flags := SET_ZNC_SUB (CLR_ZNC st.flags) r2 r1 res }

def subqt_n_rn (st : JagState) (op : Nat) : JagState :=
  let dreg := op &&& 31
  let r1 := convert_zero ((op >>> 5) &&& 31)
  let r2 := st.r dreg
  { st with r := upd st.r dreg (sub32 r2 r1) }

def xor_rn_rn (st : JagState) (op : Nat) : JagState :=
  let dreg := op &&& 31
  let res := st.r ((op >>> 5) &&& 31) ^^^ st.r dreg
  { st with r := upd st.r dreg res, flags := SET_ZN (CLR_ZN st.flags) res }

/-- The 64-entry dispatch table, merged over the two variants: slots 32,
33, 42, 48, 62 and 63 differ between gpu_op_table and dsp_op_table. The
slots 18 (imultn), 52 (jump) and 53 (jr) are handled by `exec` because
they refetch or recursively dispatch; for any other index this returns
the handler's result. -/
def op_table (dsp : Bool) (st : JagState) (i op : Nat) : JagState :=
  if i = 0 then add_rn_rn st op
  else if i = 1 then addc_rn_rn st op
  else if i = 2 then addq_n_rn st op
  else if i = 3 then addqt_n_rn st op
  else if i = 4 then sub_rn_rn st op
  else if i = 5 then subc_rn_rn st op
  else if i = 6 then subq_n_rn st op
  else if i = 7 then subqt_n_rn st op
  else if i = 8 then neg_rn st op
  else if i = 9 then and_rn_rn st op
  else if i = 10 then or_rn_rn st op
  else if i = 11 then xor_rn_rn st op
  else if i = 12 then not_rn st op
  else if i = 13 then btst_n_rn st op
  else if i = 14 then bset_n_rn st op
  else if i = 15 then bclr_n_rn st op
  else if i = 16 then mult_rn_rn st op
  else if i = 17 then imult_rn_rn st op
  else if i = 19 then resmac_rn st op
  else if i = 20 then imacn_rn_rn st op
  else if i = 21 then div_rn_rn st op
  else if i = 22 then abs_rn st op
  else if i = 23 then sh_rn_rn st op
  else if i = 24 then shlq_n_rn st op
  else if i = 25 then shrq_n_rn st op
  else if i = 26 then sha_rn_rn st op
  else if i = 27 then sharq_n_rn st op
  else if i = 28 then ror_rn_rn st op
  else if i = 29 then rorq_n_rn st op
  else if i = 30 then cmp_rn_rn st op
  else if i = 31 then cmpq_n_rn st op
  else if i = 32 then (if dsp then subqmod_n_rn st op else sat8_rn st op)
  else if i = 33 then (if dsp then sat16s_rn st op else sat16_rn st op)
  else if i = 34 then move_rn_rn st op
  else if i = 35 then moveq_n_rn st op
  else if i = 36 then moveta_rn_rn st op
  else if i = 37 then movefa_rn_rn st op
  else if i = 38 then movei_n_rn st op
  else if i = 39 then loadb_rn_rn st op
  else if i = 40 then loadw_rn_rn st op
  else if i = 41 then load_rn_rn st op
  else if i = 42 then (if dsp then sat32s_rn st op else loadp_rn_rn st op)
  else if i = 43 then load_r14n_rn st op
  else if i = 44 then load_r15n_rn st op
  else if i = 45 then storeb_rn_rn st op
  else if i = 46 then storew_rn_rn st op
  else if i = 47 then store_rn_rn st op
  else if i = 48 then (if dsp then mirror_rn st op else storep_rn_rn st op)
  else if i = 49 then store_rn_r14n st op
  else if i = 50 then store_rn_r15n st op
  else if i = 51 then move_pc_rn st op
  else if i = 54 then mmult_rn_rn st op
  else if i = 55 then mtoi_rn_rn st op
  else if i = 56 then normi_rn_rn st op
  else if i = 57 then nop st op
  else if i = 58 then load_r14rn_rn st op
  else if i = 59 then load_r15rn_rn st op
  else if i = 60 then store_rn_r14rn st op
  else if i = 61 then store_rn_r15rn st op
  else if i = 62 then (if dsp then illegal st op else sat24_rn st op)
  else if i = 63 then (if dsp then addqmod_n_rn st op else pack_rn st op)
  else st

/-- Dispatch one opcode word through the variant table. imultn (18) owns
a fetch loop; jump (52) and jr (53) evaluate the condition, read the
target, and execute the delay-slot word at the old pc within the same
dispatch (folded branch, 3 extra cycles); jump's target-register read
comes from the alternate bank when `m_icount` equals the bank-switch
sentinel. The fuel only bounds this nesting; `none` means it ran out. -/
def exec : Nat → JagState → Nat → Option JagState
  | 0, _, _ => none
  | fuel + 1, st, op =>
    if op >>> 10 = 18 then imultn_rn_rn (fuel + 1) st op
    else if op >>> 10 = 52 then
      (if CONDITION st (op &&& 31) ≠ 0 then
        match exec fuel { st with pc := (if st.icount = st.bankswitch_icount
            then st.a ((op >>> 5) &&& 31) else st.r ((op >>> 5) &&& 31)) }
            (ROPCODE st st.pc) with
        | none => none
        | some st2 => some { st2 with icount := st2.icount - 3 }
      else some st)
    else if op >>> 10 = 53 then
      (if CONDITION st (op &&& 31) ≠ 0 then
        match exec fuel { st with pc := u32 (st.pc + i2u32 (asr (s8v ((op >>> 2) &&& 248)) 2)) }
            (ROPCODE st st.pc) with
        | none => none
        | some st2 => some { st2 with icount := st2.icount - 3 }
      else some st)
    else some (op_table st.isdsp st (op >>> 10) op)

/-- One iteration of the core execution loop's body: record ppc, fetch
the opcode at pc, advance pc by 2 before dispatching, dispatch, and
charge one cycle. -/
def bodyStep (efuel : Nat) (st : JagState) : Option JagState :=
  match exec efuel { st with ppc := st.pc, pc := u32 (st.pc + 2) } (ROPCODE st st.pc) with
  | none => none
  | some st3 => some { st3 with icount := st3.icount - 1 }

/-- The do/while of execute_run, also counting how many iterations ran:
the loop continues while `m_icount > 0` or `m_icount` equals the
bank-switch sentinel. `lfuel` bounds the modelled number of iterations. -/
def runLoop (efuel : Nat) : Nat → JagState → Option (JagState × Nat)
  | 0, _ => none
  | lfuel + 1, st =>
    match bodyStep efuel st with
    | none => none
    | some st4 =>
      if st4.icount > 0 ∨ st4.icount = st4.bankswitch_icount then
        match runLoop efuel lfuel st4 with
        | none => none
        | some (stf, n) => some (stf, n + 1)
      else some (st4, 1)

/-- execute_run (both variants share this shape; the dispatch table is
selected by `isdsp`): when the run bit of G_CTRL is clear, zero the
remaining cycle budget and return at once; otherwise check interrupts,
reset the bank-switch sentinel to -1000, and run the core loop. -/
def execute_run (efuel lfuel : Nat) (st : JagState) : Option (JagState × Nat) :=
  if st.ctrl &&& 1 = 0 then some ({ st with icount := 0 }, 0)
  else
    let st1 := check_irqs st
    let st2 := { st1 with bankswitch_icount := -1000 }
    runLoop efuel lfuel st2

/-- COMBINE_DATA: merge the written data into the old value under the
write's byte-lane mask. -/
def combine_data (old data mem_mask : Nat) : Nat :=
  (old &&& not32 mem_mask) ||| (u32 data &&& u32 mem_mask)

/-- The flags value actually stored by a GPU flags write: only
Z/C/N/the five enable bits/the page bit (mask 0x41F7) of the combined
value are admitted, and the old interrupt-mask bit survives only when the
written value has the mask bit set. -/
def gpu_flags_stored (old data mem_mask : Nat) : Nat :=
  (combine_data old data mem_mask &&& 16887) |||
    (if combine_data old data mem_mask &&& 8 ≠ 0 then old &&& 8 else 0)

/-- G_CTRL after a GPU flags write acknowledges the pending bits named by
the written value's CINT04FLAGS field. -/
def gpu_ctrl_acked (oldctrl old data mem_mask : Nat) : Nat :=
  oldctrl &&& not32 ((combine_data old data mem_mask &&& 15872) >>> 3)

/-- The G_FLAGS case of jaguargpu_cpu_device::ctrl_w: combine the masked
write data, store the restricted flags, acknowledge pending interrupt
bits, then recompute the banks and re-check interrupts. -/
def gpu_ctrl_w_flags (st : JagState) (data mem_mask : Nat) : JagState :=
  let st1 := { st with flags := gpu_flags_stored st.flags data mem_mask }
  let st2 := { st1 with ctrl := gpu_ctrl_acked st.ctrl st.flags data mem_mask }
  check_irqs (update_register_banks st2)

/-- The flags value stored by a DSP flags write: the admitted mask also
has the sixth enable bit (0x141F7). -/
def dsp_flags_stored (old data mem_mask : Nat) : Nat :=
  (combine_data old data mem_mask &&& 82423) |||
    (if combine_data old data mem_mask &&& 8 ≠ 0 then old &&& 8 else 0)

/-- D_CTRL after a DSP flags write acknowledges the five CINT04FLAGS
pending bits and the sixth CINT5FLAG pending bit. -/
def dsp_ctrl_acked (oldctrl old data mem_mask : Nat) : Nat :=
  (oldctrl &&& not32 ((combine_data old data mem_mask &&& 15872) >>> 3)) &&&
    not32 ((combine_data old data mem_mask &&& 131072) >>> 1)

/-- The D_FLAGS case of jaguardsp_cpu_device::ctrl_w. -/
def dsp_ctrl_w_flags (st : JagState) (data mem_mask : Nat) : JagState :=
  let st1 := { st with flags := dsp_flags_stored st.flags data mem_mask }
  let st2 := { st1 with ctrl := dsp_ctrl_acked st.ctrl st.flags data mem_mask }
  check_irqs (update_register_banks st2)

/-- A base state with everything zero, bank 0 active, GPU variant. -/
def st0 : JagState where
  r := fun _ => 0
  a := fun _ => 0
  b0IsR := true
  flags := 0
  pc := 0
  ctrl := 0
  mtxc := 0
  mtxa := 0
  gend := 0
  hidata := 0
  divctrl := 0
  remainder := 0
  dmod := 0
  ppc := 0
  accum := 0
  icount := 0
  bankswitch_icount := 0
  isdsp := false
  fetch := fun _ => 0
  readB := fun _ => 0
  readW := fun _ => 0
  readL := fun _ => 0
  writes := []

/-! ### Helper lemmas -/

theorem and_fffffffc_mod4 (a : Nat) : (a &&& 4294967292) % 4 = 0 := by
  have h := (Nat.and_pow_two_sub_one_eq_mod (a &&& 4294967292) 2).symm
  norm_num at h
  rw [h, Nat.and_assoc]
  have h0 : (4294967292 &&& 3 : Nat) = 0 := by decide
  rw [h0, Nat.and_zero]

theorem and_fffffffc_or (a : Nat) (ha : a < 4294967296) :
    (a &&& 4294967292) ||| a % 4 = a := by
  have h4 : a % 4 = a &&& 3 := by
    have h := Nat.and_pow_two_sub_one_eq_mod a 2
    norm_num at h
    omega
  rw [h4, ← Nat.and_or_distrib_left]
  have h1 : (4294967292 ||| 3 : Nat) = 4294967295 := by decide
  rw [h1]
  have h5 := Nat.and_pow_two_sub_one_eq_mod a 32
  norm_num at h5
  rw [h5]
  exact Nat.mod_eq_of_lt ha

/-! ### C10: shlq semantics -/

/-- C10: for every register value and 5-bit quick field, shlq sets the
destination register to the value shifted left by 32 - convert_zero[q]
modulo 2^32 (so an encoded field of 0, quick value 32, shifts by 0 and an
encoded field of 1 shifts by 31), the carry flag receives bit 31 of the
original value, Z and N are set from the result, and no other register
changes. -/
theorem claim_C10_shlq (st : JagState) (op : Nat) :
    (shlq_n_rn st op).r (op &&& 31) =
      (st.r (op &&& 31) <<< (32 - convert_zero ((op >>> 5) &&& 31))) % M32 ∧
    ((shlq_n_rn st op).flags).testBit 1 = (st.r (op &&& 31)).testBit 31 ∧
    ((shlq_n_rn st op).flags).testBit 0 =
      decide ((st.r (op &&& 31) <<< (32 - convert_zero ((op >>> 5) &&& 31))) % M32 = 0) ∧
    ((shlq_n_rn st op).flags).testBit 2 =
      ((st.r (op &&& 31) <<< (32 - convert_zero ((op >>> 5) &&& 31))) % M32).testBit 31 ∧
    convert_zero 0 = 32 ∧ convert_zero 1 = 1 ∧
    ∀ j, j ≠ op &&& 31 → (shlq_n_rn st op).r j = st.r j := by
  have hr : (shlq_n_rn st op).r = upd st.r (op &&& 31)
      (u32 (st.r (op &&& 31) <<< (32 - convert_zero ((op >>> 5) &&& 31)))) := rfl
  have hf : (shlq_n_rn st op).flags =
      (SET_ZN (CLR_ZNC st.flags)
        (u32 (st.r (op &&& 31) <<< (32 - convert_zero ((op >>> 5) &&& 31))))) |||
      ((st.r (op &&& 31) >>> 30) &&& 2) := rfl
  have t8_0 : Nat.testBit 4294967288 0 = false := by decide
  have t8_1 : Nat.testBit 4294967288 1 = false := by decide
  have t8_2 : Nat.testBit 4294967288 2 = false := by decide
  have t4_0 : Nat.testBit 4 0 = false := by decide
  have t4_1 : Nat.testBit 4 1 = false := by decide
  have t4_2 : Nat.testBit 4 2 = true := by decide
  have t2_0 : Nat.testBit 2 0 = false := by decide
  have t2_1 : Nat.testBit 2 1 = true := by decide
  have t2_2 : Nat.testBit 2 2 = false := by decide
  have t1_1 : Nat.testBit 1 1 = false := by decide
  have t1_2 : Nat.testBit 1 2 = false := by decide
  have t0any : ∀ k, Nat.testBit 0 k = false := by intro k; simp
  refine ⟨?_, ?_, ?_, ?_, rfl, rfl, ?_⟩
  · rw [hr]; simp [upd, u32]
  · rw [hf]
    by_cases hz : u32 (st.r (op &&& 31) <<< (32 - convert_zero ((op >>> 5) &&& 31))) = 0 <;>
      simp [SET_ZN, SET_Z, SET_N, CLR_ZNC, hz, Nat.testBit_or, Nat.testBit_and,
        Nat.testBit_shiftRight, t8_1, t4_1, t2_1, t1_1]
  · rw [hf]
    by_cases hz : (st.r (op &&& 31) <<< (32 - convert_zero ((op >>> 5) &&& 31))) % M32 = 0 <;>
      simp [SET_ZN, SET_Z, SET_N, CLR_ZNC, u32, hz, Nat.testBit_or, Nat.testBit_and,
        Nat.testBit_shiftRight, t8_0, t4_0, t2_0, t0any]
  · rw [hf]
    by_cases hz : (st.r (op &&& 31) <<< (32 - convert_zero ((op >>> 5) &&& 31))) % M32 = 0 <;>
      simp [SET_ZN, SET_Z, SET_N, CLR_ZNC, u32, hz, Nat.testBit_or, Nat.testBit_and,
        Nat.testBit_shiftRight, t8_2, t4_2, t2_2, t1_2]
  · intro j hj
    rw [hr]
    simp [upd, hj]

/-! ### C5: div semantics -/

/-- C5: a div with divisor register 0 writes 0xFFFFFFFF to the quotient
register and changes nothing else (the remainder control register keeps
its old value and no fault is modelled to exist); with a nonzero divisor
the quotient and remainder come from plain integer division, or from
16.16 fixed-point division of the dividend shifted left 16 bits when the
divide-control bit is set. -/
theorem claim_C5_div (st : JagState) (op : Nat) :
    (st.r ((op >>> 5) &&& 31) = 0 →
      div_rn_rn st op = { st with r := upd st.r (op &&& 31) 4294967295 }) ∧
    (st.r ((op >>> 5) &&& 31) ≠ 0 → st.divctrl &&& 1 = 0 →
      div_rn_rn st op = { st with
        r := upd st.r (op &&& 31) (st.r (op &&& 31) / st.r ((op >>> 5) &&& 31)),
        remainder := st.r (op &&& 31) % st.r ((op >>> 5) &&& 31) }) ∧
    (st.r ((op >>> 5) &&& 31) ≠ 0 → st.divctrl &&& 1 ≠ 0 →
      div_rn_rn st op = { st with
        r := upd st.r (op &&& 31)
          ((st.r (op &&& 31) * 65536 / st.r ((op >>> 5) &&& 31)) % M32),
        remainder := st.r (op &&& 31) * 65536 % st.r ((op >>> 5) &&& 31) }) := by
  have hsh : st.r (op &&& 31) <<< 16 = st.r (op &&& 31) * 65536 := by
    rw [Nat.shiftLeft_eq]
  refine ⟨fun h0 => ?_, fun hn hc => ?_, fun hn hc => ?_⟩
  · unfold div_rn_rn
    rw [if_neg (by simpa using h0)]
  · unfold div_rn_rn
    rw [if_pos hn, if_neg (by simpa using hc)]
  · unfold div_rn_rn
    rw [if_pos hn, if_pos hc, hsh]
    simp [u32]

def divSt : JagState := { st0 with r := upd (fun _ => 0) 0 0x12345678 }

def divSt2 : JagState := { st0 with r := upd (fun _ => 0) 0 0x12345678, divctrl := 1 }

/-- Witness for C5: dividend 0x12345678 in r0, divisor register r1 = 0,
with the divide-control bit clear and set. -/
theorem claim_C5_div_witness :
    (div_rn_rn divSt 0x5420).r 0 = 0xffffffff ∧
    (div_rn_rn divSt 0x5420).remainder = divSt.remainder ∧
    (div_rn_rn divSt2 0x5420).r 0 = 0xffffffff ∧
    (div_rn_rn divSt2 0x5420).remainder = divSt2.remainder := by
  have h1 := (claim_C5_div divSt 0x5420).1 (by decide)
  have h2 := (claim_C5_div divSt2 0x5420).1 (by decide)
  rw [h1, h2]
  exact ⟨by decide, rfl, by decide, rfl⟩

/-! ### C6: storeb internal-RAM aliasing -/

/-- C6: a byte store whose computed address lies inside the variant's
internal-RAM window (0xf03000-0xf03fff GPU, 0xf1b000-0xf1cfff DSP)
performs a single aligned 4-byte write of the full 32-bit source register
value at the address with its low two bits cleared; outside the window it
performs a literal 1-byte write. -/
theorem claim_C6_storeb (st : JagState) (op : Nat) :
    (internal_ram_start st.isdsp ≤ st.r ((op >>> 5) &&& 31) ∧
        st.r ((op >>> 5) &&& 31) ≤ internal_ram_end st.isdsp →
      storeb_rn_rn st op = { st with writes := st.writes ++
          [Wr.long (st.r ((op >>> 5) &&& 31) &&& 4294967292) (u32 (st.r (op &&& 31)))] } ∧
      (st.r ((op >>> 5) &&& 31) &&& 4294967292) % 4 = 0 ∧
      (st.r ((op >>> 5) &&& 31) &&& 4294967292) ||| (st.r ((op >>> 5) &&& 31)) % 4 =
        st.r ((op >>> 5) &&& 31)) ∧
    (¬ (internal_ram_start st.isdsp ≤ st.r ((op >>> 5) &&& 31) ∧
        st.r ((op >>> 5) &&& 31) ≤ internal_ram_end st.isdsp) →
      storeb_rn_rn st op = { st with writes := st.writes ++
          [Wr.byte (st.r ((op >>> 5) &&& 31)) (st.r (op &&& 31) % 256)] }) ∧
    internal_ram_start false = 0xf03000 ∧ internal_ram_end false = 0xf03fff ∧
    internal_ram_start true = 0xf1b000 ∧ internal_ram_end true = 0xf1cfff := by
  refine ⟨fun h => ⟨?_, and_fffffffc_mod4 _, ?_⟩, fun h => ?_, rfl, rfl, rfl, rfl⟩
  · unfold storeb_rn_rn
    rw [if_pos h]
  · apply and_fffffffc_or
    have h2 := h.2
    unfold internal_ram_end at h2
    split at h2 <;> omega
  · unfold storeb_rn_rn
    rw [if_neg h]

def stbIn : JagState := { st0 with r := upd (upd (fun _ => 0) 1 0xf03001) 2 0xAABBCCDD }

def stbOut : JagState := { st0 with r := upd (upd (fun _ => 0) 1 0x4000) 2 0xAABBCCDD }

/-- Witness for C6: a GPU byte store at 0xf03001 (inside the window)
becomes an aligned long write at 0xf03000; at 0x4000 (outside) it stays a
one-byte write of the low byte. -/
theorem claim_C6_storeb_witness :
    (storeb_rn_rn stbIn 0xB422).writes = [Wr.long 0xf03000 0xAABBCCDD] ∧
    (storeb_rn_rn stbOut 0xB422).writes = [Wr.byte 0x4000 0xDD] := by
  have h1 := ((claim_C6_storeb stbIn 0xB422).1 (by decide)).1
  have h2 := (claim_C6_storeb stbOut 0xB422).2.1 (by decide)
  rw [h1, h2]
  exact ⟨by decide, by decide⟩

/-! ### C9: addqmod / subqmod against the modulo mask -/

def dspModSt : JagState :=
  { st0 with isdsp := true, dmod := 0xffffff00, r := upd (fun _ => 0) 0 0x12345678 }

/-- C9 evaluation at the failing input: with D_MOD = 0xffffff00 and
r0 = 0x12345678, `addqmod r0, 8` leaves 0x000000F8 (the claim's
circular-buffer semantics would give 0x12345680: high bits preserved from
the original register); `subqmod r0, 8` leaves 0x00000078 instead of
0x12345670. The code's combine `(res & ~MOD) | (r2 & ~MOD)` zeroes every
bit selected by D_MOD instead of preserving it. -/
theorem claim_C9_qmod_failing :
    (addqmod_n_rn dspModSt 0xFD00).r 0 = 0xF8 ∧
    (addqmod_n_rn dspModSt 0xFD00).r 0 ≠ 0x12345680 ∧
    (addqmod_n_rn dspModSt 0xFD00).r 0 &&& 0xffffff00 = 0 ∧
    (subqmod_n_rn dspModSt 0x8100).r 0 = 0x78 ∧
    (subqmod_n_rn dspModSt 0x8100).r 0 ≠ 0x12345670 := by
  refine ⟨by decide, by decide, by decide, by decide, by decide⟩

/-! ### C3: register-bank switch invariant -/

/-- C3: after a bank-switch recomputation, a set interrupt-mask flag
forces bank 0 active regardless of the page bit, and the visible
registers are the old bank-0 contents; when the desired bank differs from
the current one the two 32-entry arrays are physically exchanged, so that
after toggling the page bit opposite to the current bank a subsequent
general-register read returns the other bank's contents. -/
theorem claim_C3_banks :
    (∀ st : JagState, st.flags &&& 8 ≠ 0 →
      (update_register_banks st).b0IsR = true ∧
      ∀ i, (update_register_banks st).r i = (if st.b0IsR then st.r else st.a) i) ∧
    (∀ st : JagState, st.b0IsR = true → st.flags &&& 8 = 0 → st.flags &&& 16384 ≠ 0 →
      (update_register_banks st).r = st.a ∧ (update_register_banks st).a = st.r ∧
      (update_register_banks st).b0IsR = false) ∧
    (∀ st : JagState, st.b0IsR = false → st.flags &&& 16384 = 0 → st.flags &&& 8 = 0 →
      (update_register_banks st).r = st.a ∧ (update_register_banks st).a = st.r ∧
      (update_register_banks st).b0IsR = true) := by
  refine ⟨fun st hI => ?_, fun st hb hI hp => ?_, fun st hb hp hI => ?_⟩
  · cases hb : st.b0IsR <;>
      simp [update_register_banks, hI, hb]
  · simp [update_register_banks, hI, hp, hb]
  · simp [update_register_banks, hI, hp, hb]

def c3st1 : JagState :=
  { st0 with flags := 0x4008, b0IsR := false, r := (fun _ => 1), a := (fun _ => 2) }

def c3st2 : JagState :=
  { st0 with flags := 0x4000, b0IsR := true, r := (fun _ => 3), a := (fun _ => 4) }

/-- Witness for C3: with the mask flag and the page bit both set the
recomputation still lands on bank 0; with only the page bit set (bank 0
active before) the arrays are exchanged. -/
theorem claim_C3_banks_witness :
    (update_register_banks c3st1).b0IsR = true ∧
    (update_register_banks c3st1).r 5 = 2 ∧
    (update_register_banks c3st2).r 7 = 4 ∧
    (update_register_banks c3st2).a 7 = 3 ∧
    (update_register_banks c3st2).b0IsR = false := by
  have h1 := claim_C3_banks.1 c3st1 (by decide)
  have h2 := claim_C3_banks.2.1 c3st2 rfl (by decide) (by decide)
  refine ⟨h1.1, ?_, ?_, ?_, h2.2.2⟩
  · rw [h1.2 5]; decide
  · rw [h2.1]; decide
  · rw [h2.2.1]; decide

/-! ### C1: interrupt check -/

theorem or8_and8_ne (x : Nat) : (x ||| 8) &&& 8 ≠ 0 := by
  intro h
  have t83 : Nat.testBit 8 3 = true := by decide
  have h3 : ((x ||| 8) &&& 8).testBit 3 = true := by
    simp [Nat.testBit_or, Nat.testBit_and, t83]
  rw [h] at h3
  simp at h3

/-- irq_which picks the highest set bit of a nonzero 6-bit value. -/
theorem irq_which_max : ∀ b : Nat, b < 64 → b ≠ 0 →
    ((b >>> irq_which b) &&& 1 = 1 ∧
      ∀ j, j < 6 → (b >>> j) &&& 1 = 1 → j ≤ irq_which b) := by
  decide

/-- C1: with the interrupt-mask flag clear and at least one line pending
and enabled, check_irqs picks the highest-numbered such line k, sets the
mask flag, forces bank 0, decrements the new register 31 by 4, writes
PC-2 through that address, and sets PC to the per-variant vector base
(0xf03000 GPU, 0xf1b000 DSP) plus k*0x10; with the mask flag set it
changes no state at all. -/
theorem claim_C1_check_irqs :
    (∀ st : JagState, st.flags &&& 8 ≠ 0 → check_irqs st = st) ∧
    (∀ st : JagState, st.flags &&& 8 = 0 → irq_bits st &&& irq_mask st ≠ 0 →
      ((irq_bits st &&& irq_mask st) >>> irq_which (irq_bits st &&& irq_mask st)) &&& 1 = 1 ∧
      (∀ j, j < 6 → ((irq_bits st &&& irq_mask st) >>> j) &&& 1 = 1 →
        j ≤ irq_which (irq_bits st &&& irq_mask st)) ∧
      (check_irqs st).flags = st.flags ||| 8 ∧
      (check_irqs st).b0IsR = true ∧
      (check_irqs st).r 31 = sub32 ((if st.b0IsR then st.r else st.a) 31) 4 ∧
      (∀ i, i ≠ 31 → (check_irqs st).r i = (if st.b0IsR then st.r else st.a) i) ∧
      (check_irqs st).writes = st.writes ++
        [Wr.long (sub32 ((if st.b0IsR then st.r else st.a) 31) 4) (sub32 st.pc 2)] ∧
      (check_irqs st).pc = (if st.isdsp then 0xf1b000 else 0xf03000) +
        irq_which (irq_bits st &&& irq_mask st) * 16) := by
  constructor
  · intro st hI
    unfold check_irqs
    rw [if_pos hI]
  · intro st hI hp
    have hb64 : irq_bits st &&& irq_mask st < 64 := by
      have hm : irq_mask st < 2 ^ 6 :=
        Nat.or_lt_two_pow (Nat.and_lt_two_pow _ (by norm_num))
          (Nat.and_lt_two_pow _ (by norm_num))
      have := Nat.and_lt_two_pow (irq_bits st) hm
      simpa using this
    obtain ⟨hbit, hmax⟩ := irq_which_max _ hb64 hp
    have hI2 : ¬ st.flags &&& 8 ≠ 0 := by simpa using hI
    have hOr : (st.flags ||| 8) &&& 8 ≠ 0 := or8_and8_ne _
    refine ⟨hbit, hmax, ?_, ?_, ?_, ?_, ?_, ?_⟩
    · cases hbr : st.b0IsR <;>
        simp [check_irqs, update_register_banks, hI2, hp, hOr, hbr, upd]
    · cases hbr : st.b0IsR <;>
        simp [check_irqs, update_register_banks, hI2, hp, hOr, hbr, upd]
    · cases hbr : st.b0IsR <;>
        simp [check_irqs, update_register_banks, hI2, hp, hOr, hbr, upd]
    · intro i hi
      cases hbr : st.b0IsR <;>
        simp [check_irqs, update_register_banks, hI2, hp, hOr, hbr, upd, hi]
    · cases hbr : st.b0IsR <;>
        simp [check_irqs, update_register_banks, hI2, hp, hOr, hbr, upd]
    · cases hbr : st.b0IsR <;>
        simp [check_irqs, update_register_banks, hI2, hp, hOr, hbr, upd]

def c1st : JagState :=
  { st0 with flags := 0x40, ctrl := 0x100, pc := 0x1000, r := upd (fun _ => 0) 31 0x100 }

/-- Witness for C1: GPU, line 2 enabled (flags bit 6) and pending (ctrl
bit 8), mask clear: afterwards the mask flag is set, PC = 0xf03000 +
2*0x10, r31 went from 0x100 to 0xFC, and PC-2 was long-written at 0xFC;
with the mask set the very same state is returned unchanged. -/
theorem claim_C1_check_irqs_witness :
    (check_irqs c1st).flags = 0x48 ∧
    (check_irqs c1st).pc = 0xf03020 ∧
    (check_irqs c1st).r 31 = 0xFC ∧
    (check_irqs c1st).writes = [Wr.long 0xFC 0xFFE] ∧
    check_irqs { c1st with flags := 0x48 } = { c1st with flags := 0x48 } := by
  have h := claim_C1_check_irqs.2 c1st (by decide) (by decide)
  have h2 := claim_C1_check_irqs.1 { c1st with flags := 0x48 } (by decide)
  refine ⟨?_, ?_, ?_, ?_, h2⟩
  · rw [h.2.2.1]; decide
  · rw [h.2.2.2.2.2.2.2]; decide
  · rw [h.2.2.2.2.1]; decide
  · rw [h.2.2.2.2.2.2.1]; decide

/-! ### C7: external flags write -/

theorem urb_flags (s : JagState) : (update_register_banks s).flags = s.flags := by
  simp only [update_register_banks]
  split <;> split <;> rfl

theorem urb_ctrl (s : JagState) : (update_register_banks s).ctrl = s.ctrl := by
  simp only [update_register_banks]
  split <;> split <;> rfl

theorem urb_b0 (s : JagState) :
    (update_register_banks s).b0IsR = true ↔
      (s.flags &&& 8 ≠ 0 ∨ s.flags &&& 16384 = 0) := by
  by_cases hI : s.flags &&& 8 ≠ 0 <;> by_cases hp : s.flags &&& 16384 = 0 <;>
    cases hb : s.b0IsR <;>
    simp [update_register_banks, hI, hp, hb]

theorem check_irqs_ctrl (s : JagState) : (check_irqs s).ctrl = s.ctrl := by
  simp only [check_irqs]
  split
  · rfl
  · split
    · rfl
    · simp [urb_ctrl]

theorem check_irqs_flags_or (s : JagState) :
    (check_irqs s).flags = s.flags ∨ (check_irqs s).flags = s.flags ||| 8 := by
  simp only [check_irqs]
  split
  · exact Or.inl rfl
  · split
    · exact Or.inl rfl
    · right
      simp [urb_flags]

theorem check_irqs_idle (s : JagState) (h : irq_bits s &&& irq_mask s = 0) :
    check_irqs s = s := by
  simp [check_irqs, h]

theorem gpu_stored_hi (old d m : Nat) : gpu_flags_stored old d m &&& 4294950400 = 0 := by
  unfold gpu_flags_stored
  rw [Nat.and_distrib_right, Nat.and_assoc]
  have h1 : (16887 &&& 4294950400 : Nat) = 0 := by decide
  rw [h1, Nat.and_zero, Nat.zero_or]
  split
  · rw [Nat.and_assoc]
    have h2 : (8 &&& 4294950400 : Nat) = 0 := by decide
    rw [h2, Nat.and_zero]
  · rfl

theorem gpu_stored_hi8 (old d m : Nat) :
    (gpu_flags_stored old d m ||| 8) &&& 4294950400 = 0 := by
  rw [Nat.and_distrib_right, gpu_stored_hi]
  decide

theorem dsp_stored_hi (old d m : Nat) : dsp_flags_stored old d m &&& 4294884864 = 0 := by
  unfold dsp_flags_stored
  rw [Nat.and_distrib_right, Nat.and_assoc]
  have h1 : (82423 &&& 4294884864 : Nat) = 0 := by decide
  rw [h1, Nat.and_zero, Nat.zero_or]
  split
  · rw [Nat.and_assoc]
    have h2 : (8 &&& 4294884864 : Nat) = 0 := by decide
    rw [h2, Nat.and_zero]
  · rfl

theorem dsp_stored_hi8 (old d m : Nat) :
    (dsp_flags_stored old d m ||| 8) &&& 4294884864 = 0 := by
  rw [Nat.and_distrib_right, dsp_stored_hi]
  decide

theorem gpu_stored_mask_bit (old d m : Nat) :
    gpu_flags_stored old d m &&& 8 =
      (if combine_data old d m &&& 8 ≠ 0 then old &&& 8 else 0) := by
  unfold gpu_flags_stored
  rw [Nat.and_distrib_right, Nat.and_assoc]
  have h1 : (16887 &&& 8 : Nat) = 0 := by decide
  rw [h1, Nat.and_zero, Nat.zero_or]
  split
  · rw [Nat.and_assoc]
    have h2 : (8 &&& 8 : Nat) = 8 := by decide
    rw [h2]
  · rfl

theorem dsp_stored_mask_bit (old d m : Nat) :
    dsp_flags_stored old d m &&& 8 =
      (if combine_data old d m &&& 8 ≠ 0 then old &&& 8 else 0) := by
  unfold dsp_flags_stored
  rw [Nat.and_distrib_right, Nat.and_assoc]
  have h1 : (82423 &&& 8 : Nat) = 0 := by decide
  rw [h1, Nat.and_zero, Nat.zero_or]
  split
  · rw [Nat.and_assoc]
    have h2 : (8 &&& 8 : Nat) = 8 := by decide
    rw [h2]
  · rfl

def c7st : JagState := { st0 with flags := 8 }

/-- C7 counterexample: the GPU flags register holds only the
interrupt-mask bit (8); an external write of 0 (full byte-lane mask) then
leaves the flags at 0 - the existing interrupt-mask bit is cleared by an
outside write that attempts to clear it, contradicting the claim that it
would be preserved. -/
theorem claim_C7_counterexample :
    c7st.flags &&& 8 = 8 ∧
    (gpu_ctrl_w_flags c7st 0 0xffffffff).flags &&& 8 = 0 ∧
    (gpu_ctrl_w_flags c7st 0 0xffffffff).flags = 0 := by
  refine ⟨by decide, by decide, by decide⟩

/-- C7 (amended): an external flags write admits only the Z/C/N bits, the
interrupt-enable bits and the page-select bit of the combined written
value; the interrupt-mask bit cannot be *set* from outside - when the
written value has the mask bit set the previous mask bit is kept, and
when it is clear the mask bit is cleared; the write acknowledges the
pending-interrupt control bits named by the written value and re-runs the
bank-switch recomputation and the interrupt check. The hypotheses named
hno isolate the case where the re-run interrupt check finds nothing to
dispatch, so the stored flags are also the final flags. -/
theorem claim_C7_flags_write (st : JagState) (data mem_mask : Nat) :
    ((gpu_ctrl_w_flags st data mem_mask).flags &&& 4294950400 = 0) ∧
    (gpu_flags_stored st.flags data mem_mask &&& 8 =
      (if combine_data st.flags data mem_mask &&& 8 ≠ 0 then st.flags &&& 8 else 0)) ∧
    ((gpu_ctrl_w_flags st data mem_mask).ctrl =
      gpu_ctrl_acked st.ctrl st.flags data mem_mask) ∧
    (∀ hno : irq_bits { st with ctrl := gpu_ctrl_acked st.ctrl st.flags data mem_mask } &&&
        irq_mask { st with flags := gpu_flags_stored st.flags data mem_mask } = 0,
      (gpu_ctrl_w_flags st data mem_mask).flags = gpu_flags_stored st.flags data mem_mask ∧
      ((gpu_ctrl_w_flags st data mem_mask).b0IsR = true ↔
        (gpu_flags_stored st.flags data mem_mask &&& 8 ≠ 0 ∨
         gpu_flags_stored st.flags data mem_mask &&& 16384 = 0))) ∧
    ((dsp_ctrl_w_flags st data mem_mask).flags &&& 4294884864 = 0) ∧
    (dsp_flags_stored st.flags data mem_mask &&& 8 =
      (if combine_data st.flags data mem_mask &&& 8 ≠ 0 then st.flags &&& 8 else 0)) ∧
    ((dsp_ctrl_w_flags st data mem_mask).ctrl =
      dsp_ctrl_acked st.ctrl st.flags data mem_mask) ∧
    (∀ hno : irq_bits { st with ctrl := dsp_ctrl_acked st.ctrl st.flags data mem_mask } &&&
        irq_mask { st with flags := dsp_flags_stored st.flags data mem_mask } = 0,
      (dsp_ctrl_w_flags st data mem_mask).flags = dsp_flags_stored st.flags data mem_mask ∧
      ((dsp_ctrl_w_flags st data mem_mask).b0IsR = true ↔
        (dsp_flags_stored st.flags data mem_mask &&& 8 ≠ 0 ∨
         dsp_flags_stored st.flags data mem_mask &&& 16384 = 0))) := by
  refine ⟨?_, gpu_stored_mask_bit _ _ _, ?_, fun hno => ⟨?_, ?_⟩,
          ?_, dsp_stored_mask_bit _ _ _, ?_, fun hno => ⟨?_, ?_⟩⟩
  · unfold gpu_ctrl_w_flags
    rcases check_irqs_flags_or (update_register_banks
        { st with flags := gpu_flags_stored st.flags data mem_mask,
                  ctrl := gpu_ctrl_acked st.ctrl st.flags data mem_mask }) with h | h <;>
      rw [h, urb_flags] <;> [exact gpu_stored_hi _ _ _; exact gpu_stored_hi8 _ _ _]
  · unfold gpu_ctrl_w_flags
    rw [check_irqs_ctrl, urb_ctrl]
  · unfold gpu_ctrl_w_flags
    rw [check_irqs_idle _ (by simpa [irq_bits, irq_mask, urb_ctrl, urb_flags] using hno),
      urb_flags]
  · unfold gpu_ctrl_w_flags
    rw [check_irqs_idle _ (by simpa [irq_bits, irq_mask, urb_ctrl, urb_flags] using hno)]
    exact urb_b0 _
  · unfold dsp_ctrl_w_flags
    rcases check_irqs_flags_or (update_register_banks
        { st with flags := dsp_flags_stored st.flags data mem_mask,
                  ctrl := dsp_ctrl_acked st.ctrl st.flags data mem_mask }) with h | h <;>
      rw [h, urb_flags] <;> [exact dsp_stored_hi _ _ _; exact dsp_stored_hi8 _ _ _]
  · unfold dsp_ctrl_w_flags
    rw [check_irqs_ctrl, urb_ctrl]
  · unfold dsp_ctrl_w_flags
    rw [check_irqs_idle _ (by simpa [irq_bits, irq_mask, urb_ctrl, urb_flags] using hno),
      urb_flags]
  · unfold dsp_ctrl_w_flags
    rw [check_irqs_idle _ (by simpa [irq_bits, irq_mask, urb_ctrl, urb_flags] using hno)]
    exact urb_b0 _

def c7stA : JagState := { st0 with flags := 0x0F }

/-- Witness for C7 (amended): with Z/C/N and the mask bit set, writing
0x4008 (page bit plus an attempt to keep the mask) stores 0x4008: the old
mask bit survives, Z/C/N are replaced; starting from flags 0 a write of 8
cannot set the mask bit and stores 0. -/
theorem claim_C7_flags_write_witness :
    (gpu_ctrl_w_flags c7stA 0x4008 0xffffffff).flags = 0x4008 ∧
    (gpu_ctrl_w_flags st0 8 0xffffffff).flags = 0 ∧
    gpu_flags_stored st0.flags 8 0xffffffff &&& 8 = 0 := by
  have h1 := ((claim_C7_flags_write c7stA 0x4008 0xffffffff).2.2.2.1 (by decide)).1
  have h2 := ((claim_C7_flags_write st0 8 0xffffffff).2.2.2.1 (by decide)).1
  have h3 := (claim_C7_flags_write st0 8 0xffffffff).2.1
  refine ⟨?_, ?_, ?_⟩
  · rw [h1]; decide
  · rw [h2]; decide
  · rw [h3]; decide

/-! ### C2: the imultn / imacn / resmac chain -/

/-- The exact signed products contributed by a list of IMACN words over a
fixed register file. -/
def chainSum (r : Nat → Nat) : List Nat → Int
  | [] => 0
  | w :: ws => s16v (r ((w >>> 5) &&& 31)) * s16v (r (w &&& 31)) + chainSum r ws

theorem i2u64_lt (x : Int) : i2u64 x < U64 := by
  unfold i2u64 U64
  omega

theorem i2u64_add (x y : Int) : (i2u64 x + i2u64 y) % U64 = i2u64 (x + y) := by
  unfold i2u64 U64
  omega

theorem i2u64_add_mod (a : Nat) (x y : Int) :
    ((a + i2u64 x) % U64 + i2u64 y) % U64 = (a + i2u64 (x + y)) % U64 := by
  unfold i2u64 U64
  omega

theorem s16v_bounds (x : Nat) : -32768 ≤ s16v x ∧ s16v x ≤ 32767 := by
  unfold s16v
  have h := Nat.mod_lt x (y := 65536) (by omega)
  split <;> omega

theorem s16_prod_bounds (a b : Nat) :
    -2147483648 ≤ s16v a * s16v b ∧ s16v a * s16v b < 2147483648 := by
  obtain ⟨h1, h2⟩ := s16v_bounds a
  obtain ⟨h3, h4⟩ := s16v_bounds b
  constructor <;> nlinarith

theorem s32v_i2u32 (p : Int) (h1 : -2147483648 ≤ p) (h2 : p < 2147483648) :
    s32v (i2u32 p) = p := by
  unfold s32v i2u32 u32 M32
  split <;> omega

/-- The imacn fetch loop consumes exactly the laid-out run of IMACN words
and accumulates their signed products, stopping on the first non-IMACN
word. -/
theorem imacnLoop_spec (r fetch : Nat → Nat) (ws : List Nat) (t : Nat)
    (ht20 : ¬ t >>> 10 = 20) :
    ∀ pc acc fuel,
      (∀ i (h : i < ws.length), fetch (pc + 2 * i) % 65536 = ws.get ⟨i, h⟩) →
      (∀ w ∈ ws, w >>> 10 = 20) →
      fetch (pc + 2 * ws.length) % 65536 = t →
      pc + 2 * ws.length < M32 →
      acc < U64 →
      ws.length < fuel →
      imacnLoop r fetch fuel pc acc =
        some (pc + 2 * ws.length, (acc + i2u64 (chainSum r ws)) % U64, t) := by
  induction ws with
  | nil =>
    intro pc acc fuel hws h20 hterm hpc hacc hfuel
    cases fuel with
    | zero => omega
    | succ f =>
      have hw : fetch pc % 65536 = t := by simpa using hterm
      unfold imacnLoop
      rw [hw, if_neg ht20]
      have hz : chainSum r [] = 0 := rfl
      rw [hz]
      have h0 : i2u64 0 = 0 := rfl
      rw [h0, Nat.add_zero, Nat.mod_eq_of_lt hacc]
      simp
  | cons w ws ih =>
    intro pc acc fuel hws h20 hterm hpc hacc hfuel
    cases fuel with
    | zero => omega
    | succ f =>
      have hw : fetch pc % 65536 = w := by simpa using hws 0 (by simp)
      have hlen : (w :: ws).length = ws.length + 1 := rfl
      rw [hlen] at hterm hpc
      unfold imacnLoop
      rw [hw, if_pos (h20 w (by simp))]
      have hpc2 : u32 (pc + 2) = pc + 2 := by
        unfold u32
        exact Nat.mod_eq_of_lt (by omega)
      rw [hpc2]
      have hws2 : ∀ i (h : i < ws.length), fetch (pc + 2 + 2 * i) % 65536 = ws.get ⟨i, h⟩ := by
        intro i h
        have h2 := hws (i + 1) (by simpa using Nat.succ_lt_succ h)
        rw [show pc + 2 * (i + 1) = pc + 2 + 2 * i from by ring] at h2
        simpa using h2
      have hterm2 : fetch (pc + 2 + 2 * ws.length) % 65536 = t := by
        rw [show pc + 2 + 2 * ws.length = pc + 2 * (ws.length + 1) from by ring]
        exact hterm
      have := ih (pc + 2) ((acc + i2u64 (s16v (r ((w >>> 5) &&& 31)) * s16v (r (w &&& 31)))) % U64) f
        hws2 (fun v hv => h20 v (List.mem_cons_of_mem _ hv)) hterm2 (by omega)
        (Nat.mod_lt _ (by unfold U64; omega)) (by omega)
      rw [this]
      have hsum : chainSum r (w :: ws) =
          s16v (r ((w >>> 5) &&& 31)) * s16v (r (w &&& 31)) + chainSum r ws := rfl
      rw [hsum, i2u64_add_mod]
      have hpceq : pc + 2 + 2 * ws.length = pc + 2 * (ws.length + 1) := by ring
      rw [hpceq, hlen]

/-- C2: dispatching one imultn opcode whose following words are a run of
IMACN words terminated by a RESMAC word executes as one dispatch step: it
seeds the accumulator with imultn's signed 16x16 product, adds each IMACN
word's signed product, advances PC past every consumed IMACN word and
past the terminating RESMAC word, and writes the low 32 bits of the
accumulator to the register named by the RESMAC word (the cycle count and
write log are untouched, as the structure equality shows). -/
theorem claim_C2_imultn_chain (st : JagState) (op : Nat) (ws : List Nat) (t : Nat)
    (fuel : Nat)
    (hws : ∀ i (h : i < ws.length), st.fetch (st.pc + 2 * i) % 65536 = ws.get ⟨i, h⟩)
    (h20 : ∀ w ∈ ws, w >>> 10 = 20)
    (hterm : st.fetch (st.pc + 2 * ws.length) % 65536 = t)
    (ht19 : t >>> 10 = 19)
    (hpc : st.pc + 2 * ws.length + 2 < M32)
    (hfuel : ws.length < fuel) :
    imultn_rn_rn fuel st op = some { st with
      flags := SET_ZN (CLR_ZN st.flags)
        (i2u32 (s16v (st.r ((op >>> 5) &&& 31)) * s16v (st.r (op &&& 31)))),
      accum := i2u64 (s16v (st.r ((op >>> 5) &&& 31)) * s16v (st.r (op &&& 31)) +
        chainSum st.r ws),
      pc := st.pc + 2 * ws.length + 2,
      r := upd st.r (t &&& 31)
        (i2u64 (s16v (st.r ((op >>> 5) &&& 31)) * s16v (st.r (op &&& 31)) +
          chainSum st.r ws) % M32) } := by
  have ht20 : ¬ t >>> 10 = 20 := by omega
  obtain ⟨hb1, hb2⟩ := s16_prod_bounds (st.r ((op >>> 5) &&& 31)) (st.r (op &&& 31))
  have hseed : s32v (i2u32 (s16v (st.r ((op >>> 5) &&& 31)) * s16v (st.r (op &&& 31)))) =
      s16v (st.r ((op >>> 5) &&& 31)) * s16v (st.r (op &&& 31)) := s32v_i2u32 _ hb1 hb2
  have hloop := imacnLoop_spec st.r st.fetch ws t ht20 st.pc
    (i2u64 (s32v (i2u32 (s16v (st.r ((op >>> 5) &&& 31)) * s16v (st.r (op &&& 31)))))) fuel
    hws h20 hterm (by omega) (i2u64_lt _) hfuel
  simp only [imultn_rn_rn, hloop]
  rw [if_pos ht19]
  rw [hseed, i2u64_add]
  have hpceq : u32 (st.pc + 2 * ws.length + 2) = st.pc + 2 * ws.length + 2 :=
    Nat.mod_eq_of_lt hpc
  rw [hpceq]

def c2st : JagState :=
  { st0 with
    pc := 0x100,
    fetch := (fun a => if a = 0x100 then 0x5064 else if a = 0x102 then 0x50A6 else
      if a = 0x104 then 0x4C07 else 0),
    r := (fun i => if i = 1 then 0xFFFF else if i = 2 then 7 else if i = 3 then 0x8000 else
      if i = 4 then 3 else if i = 5 then 100 else if i = 6 then 200 else 0) }

/-- Witness for C2: imultn r1,r2 (product -1*7) followed by imacn r3,r4
(-32768*3) and imacn r5,r6 (100*200) and resmac r7; all four words are
consumed (PC 0x100 -> 0x106) and r7 receives the low 32 bits of
-7 - 98304 + 20000 = -78311, i.e. 4294888985. -/
theorem claim_C2_imultn_chain_witness :
    (imultn_rn_rn 3 c2st 0x4822).map (fun s => (s.r 7, s.pc, s.accum % M32)) =
      some (4294888985, 0x106, 4294888985) := by
  have h := claim_C2_imultn_chain c2st 0x4822 [0x5064, 0x50A6] 0x4C07 3
    (by decide) (by decide) (by decide) (by decide) (by decide) (by decide)
  rw [h]
  decide

/-! ### C8: halted run entry -/

def c8st : JagState := { st0 with icount := 7 }

/-- C8 counterexample: with the run bit clear and a positive budget of 7
cycles, execute_run returns with the remaining budget set to 0, so the
whole budget of 7 cycles was given up - not zero cycles of it. -/
theorem claim_C8_counterexample :
    c8st.ctrl &&& 1 = 0 ∧ c8st.icount = 7 ∧
    (execute_run 1 1 c8st).map (fun p => p.1.icount) = some 0 ∧
    ¬ (execute_run 1 1 c8st).map (fun p => p.1.icount) = some c8st.icount := by
  refine ⟨by decide, by decide, by decide, by decide⟩

/-- C8 (amended): when the run bit of the control/status register is
clear, execute_run executes no loop iteration and returns immediately
with the remaining cycle budget zeroed (the scheduler sees the whole
budget consumed), leaving all general registers, flags, PC and the other
control registers unchanged - the returned state differs from the input
only in the icount field. -/
theorem claim_C8_halted_run (efuel lfuel : Nat) (st : JagState)
    (h : st.ctrl &&& 1 = 0) :
    execute_run efuel lfuel st = some ({ st with icount := 0 }, 0) := by
  unfold execute_run
  rw [if_pos h]

/-- Witness for C8 (amended) at the counterexample state. -/
theorem claim_C8_halted_run_witness :
    execute_run 1 1 c8st = some ({ c8st with icount := 0 }, 0) :=
  claim_C8_halted_run 1 1 c8st (by decide)

/-! ### C4: the bank-switch sentinel -/

set_option maxHeartbeats 4000000 in
theorem op_table_icount (dsp : Bool) (st : JagState) (i op : Nat) :
    (op_table dsp st i op).icount = st.icount := by
  unfold op_table
  by_cases h0 : i = 0
  · rw [if_pos h0]
    rfl
  rw [if_neg h0]
  by_cases h1 : i = 1
  · rw [if_pos h1]
    rfl
  rw [if_neg h1]
  by_cases h2 : i = 2
  · rw [if_pos h2]
    rfl
  rw [if_neg h2]
  by_cases h3 : i = 3
  · rw [if_pos h3]
    rfl
  rw [if_neg h3]
  by_cases h4 : i = 4
  · rw [if_pos h4]
    rfl
  rw [if_neg h4]
  by_cases h5 : i = 5
  · rw [if_pos h5]
    rfl
  rw [if_neg h5]
  by_cases h6 : i = 6
  · rw [if_pos h6]
    rfl
  rw [if_neg h6]
  by_cases h7 : i = 7
  · rw [if_pos h7]
    rfl
  rw [if_neg h7]
  by_cases h8 : i = 8
  · rw [if_pos h8]
    rfl
  rw [if_neg h8]
  by_cases h9 : i = 9
  · rw [if_pos h9]
    rfl
  rw [if_neg h9]
  by_cases h10 : i = 10
  · rw [if_pos h10]
    rfl
  rw [if_neg h10]
  by_cases h11 : i = 11
  · rw [if_pos h11]
    rfl
  rw [if_neg h11]
  by_cases h12 : i = 12
  · rw [if_pos h12]
    rfl
  rw [if_neg h12]
  by_cases h13 : i = 13
  · rw [if_pos h13]
    rfl
  rw [if_neg h13]
  by_cases h14 : i = 14
  · rw [if_pos h14]
    rfl
  rw [if_neg h14]
  by_cases h15 : i = 15
  · rw [if_pos h15]
    rfl
  rw [if_neg h15]
  by_cases h16 : i = 16
  · rw [if_pos h16]
    rfl
  rw [if_neg h16]
  by_cases h17 : i = 17
  · rw [if_pos h17]
    rfl
  rw [if_neg h17]
  by_cases h19 : i = 19
  · rw [if_pos h19]
    rfl
  rw [if_neg h19]
  by_cases h20 : i = 20
  · rw [if_pos h20]
    rfl
  rw [if_neg h20]
  by_cases h21 : i = 21
  · rw [if_pos h21]
    simp only [div_rn_rn]
    split_ifs <;> rfl
  rw [if_neg h21]
  by_cases h22 : i = 22
  · rw [if_pos h22]
    simp only [abs_rn]
    split_ifs <;> rfl
  rw [if_neg h22]
  by_cases h23 : i = 23
  · rw [if_pos h23]
    simp only [sh_rn_rn]
    split_ifs <;> rfl
  rw [if_neg h23]
  by_cases h24 : i = 24
  · rw [if_pos h24]
    rfl
  rw [if_neg h24]
  by_cases h25 : i = 25
  · rw [if_pos h25]
    rfl
  rw [if_neg h25]
  by_cases h26 : i = 26
  · rw [if_pos h26]
    simp only [sha_rn_rn]
    split_ifs <;> rfl
  rw [if_neg h26]
  by_cases h27 : i = 27
  · rw [if_pos h27]
    rfl
  rw [if_neg h27]
  by_cases h28 : i = 28
  · rw [if_pos h28]
    rfl
  rw [if_neg h28]
  by_cases h29 : i = 29
  · rw [if_pos h29]
    rfl
  rw [if_neg h29]
  by_cases h30 : i = 30
  · rw [if_pos h30]
    rfl
  rw [if_neg h30]
  by_cases h31 : i = 31
  · rw [if_pos h31]
    rfl
  rw [if_neg h31]
  by_cases h32 : i = 32
  · rw [if_pos h32]
    cases dsp <;> rfl
  rw [if_neg h32]
  by_cases h33 : i = 33
  · rw [if_pos h33]
    cases dsp <;> rfl
  rw [if_neg h33]
  by_cases h34 : i = 34
  · rw [if_pos h34]
    rfl
  rw [if_neg h34]
  by_cases h35 : i = 35
  · rw [if_pos h35]
    rfl
  rw [if_neg h35]
  by_cases h36 : i = 36
  · rw [if_pos h36]
    rfl
  rw [if_neg h36]
  by_cases h37 : i = 37
  · rw [if_pos h37]
    rfl
  rw [if_neg h37]
  by_cases h38 : i = 38
  · rw [if_pos h38]
    rfl
  rw [if_neg h38]
  by_cases h39 : i = 39
  · rw [if_pos h39]
    simp only [loadb_rn_rn]
    split_ifs <;> rfl
  rw [if_neg h39]
  by_cases h40 : i = 40
  · rw [if_pos h40]
    simp only [loadw_rn_rn]
    split_ifs <;> rfl
  rw [if_neg h40]
  by_cases h41 : i = 41
  · rw [if_pos h41]
    rfl
  rw [if_neg h41]
  by_cases h42 : i = 42
  · rw [if_pos h42]
    cases dsp
    · simp only [loadp_rn_rn]
      split_ifs <;> rfl
    · rfl
  rw [if_neg h42]
  by_cases h43 : i = 43
  · rw [if_pos h43]
    rfl
  rw [if_neg h43]
  by_cases h44 : i = 44
  · rw [if_pos h44]
    rfl
  rw [if_neg h44]
  by_cases h45 : i = 45
  · rw [if_pos h45]
    simp only [storeb_rn_rn]
    split_ifs <;> rfl
  rw [if_neg h45]
  by_cases h46 : i = 46
  · rw [if_pos h46]
    simp only [storew_rn_rn]
    split_ifs <;> rfl
  rw [if_neg h46]
  by_cases h47 : i = 47
  · rw [if_pos h47]
    rfl
  rw [if_neg h47]
  by_cases h48 : i = 48
  · rw [if_pos h48]
    cases dsp
    · simp only [storep_rn_rn]
      split_ifs <;> rfl
    · rfl
  rw [if_neg h48]
  by_cases h49 : i = 49
  · rw [if_pos h49]
    rfl
  rw [if_neg h49]
  by_cases h50 : i = 50
  · rw [if_pos h50]
    rfl
  rw [if_neg h50]
  by_cases h51 : i = 51
  · rw [if_pos h51]
    rfl
  rw [if_neg h51]
  by_cases h54 : i = 54
  · rw [if_pos h54]
    rfl
  rw [if_neg h54]
  by_cases h55 : i = 55
  · rw [if_pos h55]
    rfl
  rw [if_neg h55]
  by_cases h56 : i = 56
  · rw [if_pos h56]
    rfl
  rw [if_neg h56]
  by_cases h57 : i = 57
  · rw [if_pos h57]
    rfl
  rw [if_neg h57]
  by_cases h58 : i = 58
  · rw [if_pos h58]
    rfl
  rw [if_neg h58]
  by_cases h59 : i = 59
  · rw [if_pos h59]
    rfl
  rw [if_neg h59]
  by_cases h60 : i = 60
  · rw [if_pos h60]
    rfl
  rw [if_neg h60]
  by_cases h61 : i = 61
  · rw [if_pos h61]
    rfl
  rw [if_neg h61]
  by_cases h62 : i = 62
  · rw [if_pos h62]
    cases dsp <;> rfl
  rw [if_neg h62]
  by_cases h63 : i = 63
  · rw [if_pos h63]
    cases dsp <;> rfl
  rw [if_neg h63]

set_option maxHeartbeats 4000000 in
theorem op_table_bsw (dsp : Bool) (st : JagState) (i op : Nat) :
    (op_table dsp st i op).bankswitch_icount = st.bankswitch_icount := by
  unfold op_table
  by_cases h0 : i = 0
  · rw [if_pos h0]
    rfl
  rw [if_neg h0]
  by_cases h1 : i = 1
  · rw [if_pos h1]
    rfl
  rw [if_neg h1]
  by_cases h2 : i = 2
  · rw [if_pos h2]
    rfl
  rw [if_neg h2]
  by_cases h3 : i = 3
  · rw [if_pos h3]
    rfl
  rw [if_neg h3]
  by_cases h4 : i = 4
  · rw [if_pos h4]
    rfl
  rw [if_neg h4]
  by_cases h5 : i = 5
  · rw [if_pos h5]
    rfl
  rw [if_neg h5]
  by_cases h6 : i = 6
  · rw [if_pos h6]
    rfl
  rw [if_neg h6]
  by_cases h7 : i = 7
  · rw [if_pos h7]
    rfl
  rw [if_neg h7]
  by_cases h8 : i = 8
  · rw [if_pos h8]
    rfl
  rw [if_neg h8]
  by_cases h9 : i = 9
  · rw [if_pos h9]
    rfl
  rw [if_neg h9]
  by_cases h10 : i = 10
  · rw [if_pos h10]
    rfl
  rw [if_neg h10]
  by_cases h11 : i = 11
  · rw [if_pos h11]
    rfl
  rw [if_neg h11]
  by_cases h12 : i = 12
  · rw [if_pos h12]
    rfl
  rw [if_neg h12]
  by_cases h13 : i = 13
  · rw [if_pos h13]
    rfl
  rw [if_neg h13]
  by_cases h14 : i = 14
  · rw [if_pos h14]
    rfl
  rw [if_neg h14]
  by_cases h15 : i = 15
  · rw [if_pos h15]
    rfl
  rw [if_neg h15]
  by_cases h16 : i = 16
  · rw [if_pos h16]
    rfl
  rw [if_neg h16]
  by_cases h17 : i = 17
  · rw [if_pos h17]
    rfl
  rw [if_neg h17]
  by_cases h19 : i = 19
  · rw [if_pos h19]
    rfl
  rw [if_neg h19]
  by_cases h20 : i = 20
  · rw [if_pos h20]
    rfl
  rw [if_neg h20]
  by_cases h21 : i = 21
  · rw [if_pos h21]
    simp only [div_rn_rn]
    split_ifs <;> rfl
  rw [if_neg h21]
  by_cases h22 : i = 22
  · rw [if_pos h22]
    simp only [abs_rn]
    split_ifs <;> rfl
  rw [if_neg h22]
  by_cases h23 : i = 23
  · rw [if_pos h23]
    simp only [sh_rn_rn]
    split_ifs <;> rfl
  rw [if_neg h23]
  by_cases h24 : i = 24
  · rw [if_pos h24]
    rfl
  rw [if_neg h24]
  by_cases h25 : i = 25
  · rw [if_pos h25]
    rfl
  rw [if_neg h25]
  by_cases h26 : i = 26
  · rw [if_pos h26]
    simp only [sha_rn_rn]
    split_ifs <;> rfl
  rw [if_neg h26]
  by_cases h27 : i = 27
  · rw [if_pos h27]
    rfl
  rw [if_neg h27]
  by_cases h28 : i = 28
  · rw [if_pos h28]
    rfl
  rw [if_neg h28]
  by_cases h29 : i = 29
  · rw [if_pos h29]
    rfl
  rw [if_neg h29]
  by_cases h30 : i = 30
  · rw [if_pos h30]
    rfl
  rw [if_neg h30]
  by_cases h31 : i = 31
  · rw [if_pos h31]
    rfl
  rw [if_neg h31]
  by_cases h32 : i = 32
  · rw [if_pos h32]
    cases dsp <;> rfl
  rw [if_neg h32]
  by_cases h33 : i = 33
  · rw [if_pos h33]
    cases dsp <;> rfl
  rw [if_neg h33]
  by_cases h34 : i = 34
  · rw [if_pos h34]
    rfl
  rw [if_neg h34]
  by_cases h35 : i = 35
  · rw [if_pos h35]
    rfl
  rw [if_neg h35]
  by_cases h36 : i = 36
  · rw [if_pos h36]
    rfl
  rw [if_neg h36]
  by_cases h37 : i = 37
  · rw [if_pos h37]
    rfl
  rw [if_neg h37]
  by_cases h38 : i = 38
  · rw [if_pos h38]
    rfl
  rw [if_neg h38]
  by_cases h39 : i = 39
  · rw [if_pos h39]
    simp only [loadb_rn_rn]
    split_ifs <;> rfl
  rw [if_neg h39]
  by_cases h40 : i = 40
  · rw [if_pos h40]
    simp only [loadw_rn_rn]
    split_ifs <;> rfl
  rw [if_neg h40]
  by_cases h41 : i = 41
  · rw [if_pos h41]
    rfl
  rw [if_neg h41]
  by_cases h42 : i = 42
  · rw [if_pos h42]
    cases dsp
    · simp only [loadp_rn_rn]
      split_ifs <;> rfl
    · rfl
  rw [if_neg h42]
  by_cases h43 : i = 43
  · rw [if_pos h43]
    rfl
  rw [if_neg h43]
  by_cases h44 : i = 44
  · rw [if_pos h44]
    rfl
  rw [if_neg h44]
  by_cases h45 : i = 45
  · rw [if_pos h45]
    simp only [storeb_rn_rn]
    split_ifs <;> rfl
  rw [if_neg h45]
  by_cases h46 : i = 46
  · rw [if_pos h46]
    simp only [storew_rn_rn]
    split_ifs <;> rfl
  rw [if_neg h46]
  by_cases h47 : i = 47
  · rw [if_pos h47]
    rfl
  rw [if_neg h47]
  by_cases h48 : i = 48
  · rw [if_pos h48]
    cases dsp
    · simp only [storep_rn_rn]
      split_ifs <;> rfl
    · rfl
  rw [if_neg h48]
  by_cases h49 : i = 49
  · rw [if_pos h49]
    rfl
  rw [if_neg h49]
  by_cases h50 : i = 50
  · rw [if_pos h50]
    rfl
  rw [if_neg h50]
  by_cases h51 : i = 51
  · rw [if_pos h51]
    rfl
  rw [if_neg h51]
  by_cases h54 : i = 54
  · rw [if_pos h54]
    rfl
  rw [if_neg h54]
  by_cases h55 : i = 55
  · rw [if_pos h55]
    rfl
  rw [if_neg h55]
  by_cases h56 : i = 56
  · rw [if_pos h56]
    rfl
  rw [if_neg h56]
  by_cases h57 : i = 57
  · rw [if_pos h57]
    rfl
  rw [if_neg h57]
  by_cases h58 : i = 58
  · rw [if_pos h58]
    rfl
  rw [if_neg h58]
  by_cases h59 : i = 59
  · rw [if_pos h59]
    rfl
  rw [if_neg h59]
  by_cases h60 : i = 60
  · rw [if_pos h60]
    rfl
  rw [if_neg h60]
  by_cases h61 : i = 61
  · rw [if_pos h61]
    rfl
  rw [if_neg h61]
  by_cases h62 : i = 62
  · rw [if_pos h62]
    cases dsp <;> rfl
  rw [if_neg h62]
  by_cases h63 : i = 63
  · rw [if_pos h63]
    cases dsp <;> rfl
  rw [if_neg h63]

theorem imultn_frame (fuel : Nat) (st : JagState) (op : Nat) (st2 : JagState)
    (h : imultn_rn_rn fuel st op = some st2) :
    st2.icount = st.icount ∧ st2.bankswitch_icount = st.bankswitch_icount := by
  simp only [imultn_rn_rn] at h
  split at h
  · exact absurd h (by simp)
  · split_ifs at h <;> (injection h with h2; subst h2; exact ⟨rfl, rfl⟩)

theorem exec_frame : ∀ fuel (st : JagState) (op : Nat) (st2 : JagState),
    exec fuel st op = some st2 →
    st2.bankswitch_icount = st.bankswitch_icount ∧ st2.icount ≤ st.icount := by
  intro fuel
  induction fuel with
  | zero =>
    intro st op st2 h
    exact absurd h (by simp [exec])
  | succ f ih =>
    intro st op st2 h
    unfold exec at h
    by_cases h18 : op >>> 10 = 18
    · rw [if_pos h18] at h
      obtain ⟨h1, h2⟩ := imultn_frame _ _ _ _ h
      exact ⟨h2, le_of_eq h1⟩
    · rw [if_neg h18] at h
      by_cases h52 : op >>> 10 = 52
      · rw [if_pos h52] at h
        by_cases hc : CONDITION st (op &&& 31) ≠ 0
        · rw [if_pos hc] at h
          split at h
          · exact absurd h (by simp)
          · rename_i st3 heq
            injection h with h2
            subst h2
            obtain ⟨hb, hi⟩ := ih _ _ _ heq
            refine ⟨hb, ?_⟩
            have h3 : st3.icount ≤ st.icount := hi
            show st3.icount - 3 ≤ st.icount
            omega
        · rw [if_neg hc] at h
          injection h with h2
          subst h2
          exact ⟨rfl, le_refl _⟩
      · rw [if_neg h52] at h
        by_cases h53 : op >>> 10 = 53
        · rw [if_pos h53] at h
          by_cases hc : CONDITION st (op &&& 31) ≠ 0
          · rw [if_pos hc] at h
            split at h
            · exact absurd h (by simp)
            · rename_i st3 heq
              injection h with h2
              subst h2
              obtain ⟨hb, hi⟩ := ih _ _ _ heq
              refine ⟨hb, ?_⟩
              have h3 : st3.icount ≤ st.icount := hi
              show st3.icount - 3 ≤ st.icount
              omega
          · rw [if_neg hc] at h
            injection h with h2
            subst h2
            exact ⟨rfl, le_refl _⟩
        · rw [if_neg h53] at h
          injection h with h2
          subst h2
          exact ⟨op_table_bsw st.isdsp st (op >>> 10) op,
            le_of_eq (op_table_icount st.isdsp st (op >>> 10) op)⟩

theorem bodyStep_frame (efuel : Nat) (st st4 : JagState)
    (h : bodyStep efuel st = some st4) :
    st4.bankswitch_icount = st.bankswitch_icount ∧ st4.icount ≤ st.icount - 1 := by
  unfold bodyStep at h
  split at h
  · exact absurd h (by simp)
  · rename_i st3 heq
    injection h with h2
    subst h2
    obtain ⟨hb, hi⟩ := exec_frame _ _ _ _ heq
    refine ⟨hb, ?_⟩
    have h3 : st3.icount ≤ st.icount := hi
    show st3.icount - 1 ≤ st.icount - 1
    omega

def c4st : JagState := { st0 with b0IsR := false, icount := 5 }

/-- C4 counterexample: a bank swap performed while the remaining budget
is 5 records 4 (= icount - 1) as the sentinel, not the cycle-budget value
5 at the moment of the swap as the claim states. -/
theorem claim_C4_counterexample :
    c4st.icount = 5 ∧
    (update_register_banks c4st).r = c4st.a ∧
    (update_register_banks c4st).bankswitch_icount = 4 ∧
    ¬ (update_register_banks c4st).bankswitch_icount = c4st.icount := by
  refine ⟨by decide, rfl, by decide, by decide⟩

/-- C4 (amended): a register-bank swap records one less than the
cycle-budget value at the moment of the swap as the sentinel (the value
the budget will have after the current instruction's decrement); at a
loop boundary where the budget has reached zero the run loop executes
exactly one additional iteration precisely when the remaining budget
equals the sentinel (the extra iteration cannot move the sentinel, since
no dispatched handler touches it); and a taken jump_cc dispatched while
the remaining budget equals the sentinel reads its jump-target register
from the alternate bank instead of the active bank (shown with a nop in
the delay slot so the final pc is the jump target itself). -/
theorem claim_C4_sentinel :
    (∀ st : JagState,
      (((if st.flags &&& 8 ≠ 0 then 0 else st.flags &&& 16384) == 0 && !st.b0IsR) ||
       ((if st.flags &&& 8 ≠ 0 then 0 else st.flags &&& 16384) != 0 && st.b0IsR)) = true →
      (update_register_banks st).bankswitch_icount = st.icount - 1) ∧
    (∀ efuel lfuel (st st4 : JagState), bodyStep efuel st = some st4 → st4.icount ≤ 0 →
      (st4.icount ≠ st4.bankswitch_icount → runLoop efuel (lfuel + 1) st = some (st4, 1)) ∧
      (st4.icount = st4.bankswitch_icount → ∀ st8, bodyStep efuel st4 = some st8 →
        runLoop efuel (lfuel + 2) st = some (st8, 2))) ∧
    (∀ f (st : JagState) (op : Nat), op >>> 10 = 52 → CONDITION st (op &&& 31) ≠ 0 →
      (ROPCODE st st.pc) >>> 10 = 57 →
      (st.icount = st.bankswitch_icount →
        exec (f + 2) st op =
          some { st with pc := st.a ((op >>> 5) &&& 31), icount := st.icount - 3 }) ∧
      (st.icount ≠ st.bankswitch_icount →
        exec (f + 2) st op =
          some { st with pc := st.r ((op >>> 5) &&& 31), icount := st.icount - 3 })) := by
  refine ⟨fun st h => ?_, fun efuel lfuel st st4 hbody hle => ⟨fun hne => ?_, ?_⟩,
    fun f st op h52 hc h57 => ⟨fun hicnt => ?_, fun hicnt => ?_⟩⟩
  · simp only [update_register_banks]
    rw [if_pos h]
  · simp only [runLoop, hbody]
    rw [if_neg (not_or.mpr ⟨by omega, hne⟩)]
  · intro heq st8 hbody8
    obtain ⟨hb8, hi8⟩ := bodyStep_frame efuel st4 st8 hbody8
    simp only [runLoop, hbody, hbody8]
    rw [if_pos (Or.inr heq)]
    rw [if_neg (not_or.mpr ⟨by omega, by rw [hb8, ← heq]; omega⟩)]
  · simp [exec, h52, hc, h57, hicnt, op_table, nop]
  · simp [exec, h52, hc, h57, hicnt, op_table, nop]

def c4run : JagState := { st0 with icount := 1, fetch := (fun _ => 0xE400) }

def c4run4 : JagState := { c4run with ppc := 0, pc := 2, icount := 0 }

def c4run8 : JagState := { c4run4 with ppc := 2, pc := 4, icount := -1 }

def c4jmpA : JagState :=
  { st0 with fetch := (fun _ => 0xE400), a := (fun _ => 0x777), r := (fun _ => 0x333) }

def c4jmpB : JagState := { c4jmpA with bankswitch_icount := 5 }

/-- Witness for C4 (amended): a swap at budget 5 records sentinel 4; a
loop whose first iteration ends at budget 0 with sentinel 0 runs exactly
one more (second) iteration; an unconditional jump with budget equal to
the sentinel lands on the alternate bank's register value 0x777, and with
budget different from the sentinel on the active bank's 0x333. -/
theorem claim_C4_sentinel_witness :
    runLoop 1 3 c4run = some (c4run8, 2) ∧
    (update_register_banks c4st).bankswitch_icount = 4 ∧
    (exec 2 c4jmpA 0xD020).map (fun s2 => (s2.pc, s2.icount)) = some (0x777, -3) ∧
    (exec 2 c4jmpB 0xD020).map (fun s2 => (s2.pc, s2.icount)) = some (0x333, -3) := by
  have ha := claim_C4_sentinel.1 c4st (by decide)
  have hb1 : bodyStep 1 c4run = some c4run4 := rfl
  have hb2 : bodyStep 1 c4run4 = some c4run8 := rfl
  have hb := (claim_C4_sentinel.2.1 1 1 c4run c4run4 hb1 (by decide)).2 (by decide) c4run8 hb2
  have hcA := (claim_C4_sentinel.2.2 0 c4jmpA 0xD020 (by decide) (by decide) (by decide)).1
    (by decide)
  have hcB := (claim_C4_sentinel.2.2 0 c4jmpB 0xD020 (by decide) (by decide) (by decide)).2
    (by decide)
  refine ⟨hb, ?_, ?_, ?_⟩
  · rw [ha]; decide
  · rw [hcA]; decide
  · rw [hcB]; decide
